import Mathlib

/-!
Verification of the aevum alarm-clock client core: the redraw-scheduling
protocol of the Wayland window, the friction-based scroll-velocity model,
the alarm-event bridge between the subscription worker thread and the
presentation loop, and the pulseaudio volume-raise sequence.

The Rust sources are embedded shallowly: machine floats (f64/f32) become
real numbers, state mutation becomes explicit state passing, and calls to
external collaborators (compositor, audio server, alarm store, clock)
become entries of an explicit effect trace or inputs drawn from an
environment record.
-/

namespace Aevum

/-! ## Geometry and basic data (src/geometry.rs is outside the sources;
its small helpers are modelled where noted) -/

/-- Two-dimensional point, coordinates as reals (f64 in the source). -/
structure PointR where
  x : ℝ
  y : ℝ

/-- Scale a point componentwise, as the source's `point * scale`.
Modelled from the spec: geometry.rs is not among the sources; scalar
multiplication of a point is componentwise. -/
def PointR.smul (p : PointR) (k : ℝ) : PointR :=
  { x := p.x * k, y := p.y * k }

/-- Logical window size in integer pixels (Size with u32 fields). -/
structure SizeU where
  width : ℕ
  height : ℕ
deriving DecidableEq

/-- Physical (scaled) size with real components (Size of f32 fields). -/
structure SizeF where
  width : ℝ
  height : ℝ

/-- Scale a logical size to a physical one, the source's `size * scale`.
Modelled from the spec: geometry.rs is not among the sources; the window
multiplies its logical size by the DPI factor before rendering. -/
def SizeU.scaleBy (s : SizeU) (k : ℝ) : SizeF :=
  { width := (s.width : ℝ) * k, height := (s.height : ℝ) * k }

/-- Axis-aligned rectangle over the reals (skia Rect of f32). -/
structure RectR where
  left : ℝ
  top : ℝ
  right : ℝ
  bottom : ℝ

/-- Containment of a point in a rectangle.
Modelled from the spec: geometry.rs (rect_contains) is not among the
sources; containment is taken as the half-open box [left,right) x
[top,bottom), consistent with the short-circuit tests in
ListAlarms::alarm_at. -/
def rect_contains (r : RectR) (p : PointR) : Prop :=
  r.left ≤ p.x ∧ p.x < r.right ∧ r.top ≤ p.y ∧ p.y < r.bottom

/-- Alarm record.
Modelled from the spec: the Alarm type lives in the external rezz crate;
per the data model it is an id, a unix time in seconds and a ring
duration in seconds. -/
structure Alarm where
  id : String
  unix_time : ℤ
  ring_duration : ℕ
deriving DecidableEq

/-- Input-related configuration values (config.rs is outside the sources;
fields are the ones the embedded code reads: `velocity_friction`,
`velocity_interval` in milliseconds, `max_tap_distance`,
`quick_minutes_1`, `quick_minutes_2`). -/
structure InputCfg where
  velocity_friction : ℝ
  velocity_interval : ℝ
  max_tap_distance : ℝ
  quick_minutes_1 : ℕ
  quick_minutes_2 : ℕ

/-- An RGBA colour (Color4f); exact component values are irrelevant, only
equality tests matter to the embedded code. -/
structure Color where
  r : ℝ
  g : ℝ
  b : ℝ
  a : ℝ

/-- Colour section of the configuration. -/
structure ColorsCfg where
  background : Color
  alt_background : Color
  foreground : Color

/-- Font section of the configuration. -/
structure FontCfg where
  family : String
  size : ℝ

/-- Application configuration (config.rs is outside the sources; only the
fields read by the embedded code are modelled). -/
structure Config where
  colors : ColorsCfg
  font : FontCfg
  input : InputCfg

/-! ## Rust float primitives

The embedded code uses a handful of f64 primitives whose real-number
semantics are spelled out here: truncating remainder (`%`), `copysign`,
and `round` (half away from zero). -/

/-- Truncation toward zero, Rust's `f64::trunc` as an integer. -/
noncomputable def rustTrunc (x : ℝ) : ℤ :=
  if 0 ≤ x then ⌊x⌋ else ⌈x⌉

/-- Rust's `%` on f64: remainder with the sign of the dividend,
`x - m * trunc (x / m)`. -/
noncomputable def rustRem (x m : ℝ) : ℝ :=
  x - m * (rustTrunc (x / m) : ℝ)

/-- Rust's `f64::copysign`: the magnitude of `m` with the sign of `s`. -/
noncomputable def rustCopysign (m s : ℝ) : ℝ :=
  if s < 0 then -|m| else |m|

/-- Rust's `f64::round`: round half away from zero, as an integer. -/
noncomputable def rustRound (x : ℝ) : ℤ :=
  if 0 ≤ x then ⌊x + 1 / 2⌋ else -⌊-x + 1 / 2⌋

/-! ## ScrollVelocity (src/ui/mod.rs) -/

/-- Scroll velocity state: optional baseline timestamp of the previous
tick (an `Instant`, embedded as microseconds on a real-valued monotonic
clock) and the current velocity. -/
structure ScrollVelocity where
  last_tick : Option ℝ
  velocity : ℝ

/-- Initial scroll velocity state (`Default`): no baseline, velocity 0. -/
def ScrollVelocity.init : ScrollVelocity :=
  { last_tick := none, velocity := 0 }

/-- ScrollVelocity::is_moving: whether any velocity is active. -/
def ScrollVelocity.is_moving (sv : ScrollVelocity) : Prop :=
  sv.velocity ≠ 0

/-- ScrollVelocity::set: assign a velocity and clear the tick baseline. -/
def ScrollVelocity.set (sv : ScrollVelocity) (velocity : ℝ) : ScrollVelocity :=
  { sv with velocity := velocity, last_tick := none }

open Classical in
/-- ScrollVelocity::apply: apply and update the current scroll velocity.
`now` is the current instant in microseconds; `input.velocity_interval`
is the tick interval in milliseconds, hence the factor 1000. Returns the
updated velocity state and scroll offset. -/
noncomputable def ScrollVelocity.apply (input : InputCfg) (sv : ScrollVelocity)
    (scroll_offset : ℝ) (now : ℝ) : ScrollVelocity × ℝ :=
  if sv.velocity = 0 then (sv, scroll_offset)
  else
    match sv.last_tick with
    | none => ({ sv with last_tick := some now }, scroll_offset)
    | some last_tick =>
      let interval := (now - last_tick) / (input.velocity_interval * 1000)
      let offset := scroll_offset +
        sv.velocity * (1 - input.velocity_friction ^ (interval + 1)) /
          (1 - input.velocity_friction)
      let velocity := sv.velocity * input.velocity_friction ^ interval
      if 1 < |velocity| then
        ({ last_tick := some now, velocity := velocity }, offset)
      else
        ({ last_tick := none, velocity := 0 }, offset)

/-! ## Time-of-day model

The views use the external `time` crate for wall-clock values. Only the
operations the embedded code performs are modelled: time-of-day
comparison, adding minutes, replacing the time of a date, and the unix
timestamp of an offset date-time. -/

/-- Wall-clock time of day (the time crate's Time, to second precision;
the embedded code never produces non-zero subseconds). -/
structure Tod where
  hour : ℕ
  minute : ℕ
  second : ℕ
deriving DecidableEq

/-- Lexicographic order on times of day (Time implements Ord this way). -/
def Tod.timeLt (a b : Tod) : Prop :=
  a.hour < b.hour ∨ (a.hour = b.hour ∧
    (a.minute < b.minute ∨ (a.minute = b.minute ∧ a.second < b.second)))

instance (a b : Tod) : Decidable (a.timeLt b) := by
  unfold Tod.timeLt
  infer_instance

/-- Add minutes to a time of day, wrapping within the day (the time
crate's Time + Duration discards whole-day overflow). -/
def Tod.addMinutes (t : Tod) (m : ℕ) : Tod :=
  let total := t.hour * 60 + t.minute + m
  { hour := total / 60 % 24, minute := total % 60, second := t.second }

/-- An OffsetDateTime: a day index since the unix epoch in the local
offset, a time of day, and the UTC offset in seconds. -/
structure LocalDT where
  day : ℤ
  tod : Tod
  utcOffset : ℤ

/-- Seconds since the unix epoch of an offset date-time,
`(dt - OffsetDateTime::UNIX_EPOCH).whole_seconds()`. -/
def LocalDT.unixSeconds (dt : LocalDT) : ℤ :=
  dt.day * 86400 + dt.tod.hour * 3600 + dt.tod.minute * 60 + dt.tod.second
    - dt.utcOffset

/-! ## Environment

Inputs the window code draws from its external collaborators during one
call: the monotonic clock, the local wall clock, fresh UUIDs, and the
success of fallible collaborator calls. -/

/-- External inputs consumed by one window entry point call. -/
structure Env where
  now : ℝ
  nowDT : LocalDT
  uuid : String
  playOk : Bool
  regionOk : Bool

/-! ## UI constants (src/ui/mod.rs, create_alarm.rs, list_alarms.rs) -/

/-- Outer UI padding at scale 1. -/
def OUTSIDE_PADDING : ℝ := 10

/-- Horizontal padding around buttons at scale 1. -/
def BUTTON_PADDING : ℝ := 20

/-- Button height at scale 1. -/
def BUTTON_HEIGHT : ℝ := 50

/-- Width and height of time wheel items at scale 1. -/
def CAROUSEL_ITEM_SIZE : ℝ := 75

/-- Space between carousel wheels at scale 1. -/
def CAROUSEL_SPACE : ℝ := 50

/-- Alarm ring duration in seconds (15 minutes). -/
def RING_DURATION : ℕ := 15 * 60

/-- Horizontal padding around the alarms list at scale 1. -/
def ALARMS_PADDING : ℝ := 25

/-- Height of a single alarm in the list at scale 1. -/
def ALARM_HEIGHT : ℝ := 80

/-- Width and height of the alarm deletion button at scale 1. -/
def DELETE_SIZE : ℝ := 40

/-! ## TextCarousel (src/ui/create_alarm.rs) -/

/-- A text item list with infinite scrolling. -/
structure TextCarousel where
  velocity : ScrollVelocity
  touch_point : PointR
  touch_active : Bool
  scroll_offset : ℝ
  items : List String
  scale : ℝ
  dirty : Bool

/-- TextCarousel::new. -/
def TextCarousel.new (items : List String) : TextCarousel :=
  { velocity := ScrollVelocity.init
    touch_point := { x := 0, y := 0 }
    touch_active := false
    scroll_offset := 0
    items := items
    scale := 1
    dirty := true }

/-- The carousel's item height at its current scale. -/
noncomputable def TextCarousel.item_height (c : TextCarousel) : ℝ :=
  CAROUSEL_ITEM_SIZE * c.scale

/-- TextCarousel::max_scroll_offset. -/
noncomputable def TextCarousel.max_scroll_offset (c : TextCarousel) : ℝ :=
  (c.items.length : ℝ) * c.item_height

open Classical in
/-- TextCarousel::clamp_scroll_offset: wrap the offset with Rust's `%`
and record dirtiness when it changed. -/
noncomputable def TextCarousel.clamp_scroll_offset (c : TextCarousel) : TextCarousel :=
  let old_offset := c.scroll_offset
  let c := { c with scroll_offset := rustRem c.scroll_offset c.max_scroll_offset }
  { c with dirty := c.dirty || decide (old_offset ≠ c.scroll_offset) }

/-- TextCarousel::rounded_offset: the nearest item offset. -/
noncomputable def TextCarousel.rounded_offset (c : TextCarousel) : ℝ :=
  let remainder := rustRem c.scroll_offset c.item_height
  let offset := c.scroll_offset - remainder
  if c.item_height / 2 ≤ |remainder| then
    offset + rustCopysign c.item_height c.scroll_offset
  else offset

open Classical in
/-- TextCarousel::draw, state changes only (text shaping and painting are
presentation effects outside the model): clear the dirty flag, rescale
the offset on scale change, animate the velocity, clamp, and snap to the
nearest item when idle and untouched. -/
noncomputable def TextCarousel.draw (c : TextCarousel) (scale : ℝ)
    (input : InputCfg) (now : ℝ) : TextCarousel :=
  let c := { c with dirty := false }
  let c :=
    if c.scale ≠ scale then
      { c with scroll_offset := c.scroll_offset * (scale / c.scale), scale := scale }
    else { c with scale := scale }
  let applied := ScrollVelocity.apply input c.velocity c.scroll_offset now
  let c := { c with velocity := applied.1, scroll_offset := applied.2 }
  let c := c.clamp_scroll_offset
  if ¬c.velocity.is_moving ∧ c.touch_active = false then
    { c with scroll_offset := c.rounded_offset }
  else c

/-- TextCarousel::dirty: redraw needed if flagged dirty, still moving, or
resting off the snapped position while untouched. -/
def TextCarousel.dirtyProp (c : TextCarousel) : Prop :=
  c.dirty = true ∨ c.velocity.is_moving ∨
    (c.touch_active = false ∧ c.scroll_offset ≠ c.rounded_offset)

/-- TextCarousel::touch_down. -/
def TextCarousel.touch_down (c : TextCarousel) (physical_point : PointR) : TextCarousel :=
  { c with velocity := c.velocity.set 0
           touch_point := physical_point
           touch_active := true }

open Classical in
/-- TextCarousel::touch_motion. -/
noncomputable def TextCarousel.touch_motion (c : TextCarousel)
    (physical_point : PointR) : TextCarousel :=
  let old_point := c.touch_point
  let c := { c with touch_point := physical_point }
  let delta := c.touch_point.y - old_point.y
  let c := { c with velocity := c.velocity.set delta }
  let old_offset := c.scroll_offset
  let c := { c with scroll_offset := c.scroll_offset + delta }
  let c := c.clamp_scroll_offset
  { c with dirty := c.dirty || decide (c.scroll_offset ≠ old_offset) }

/-- TextCarousel::touch_up. -/
def TextCarousel.touch_up (c : TextCarousel) : TextCarousel :=
  { c with touch_active := false }

/-- A decimal digit's value, for the shallow decimal parser. -/
def charDigit (c : Char) : Option ℕ :=
  if 48 ≤ c.toNat ∧ c.toNat ≤ 57 then some (c.toNat - 48) else none

/-- Shallow model of Rust's str::parse::<u8> on the decimal numerals the
wheels contain: fold the digits left to right, failing on the empty
string or any non-digit. -/
def parseNat (s : String) : Option ℕ :=
  if s.data.isEmpty then none
  else s.data.foldl
    (fun acc c =>
      match acc, charDigit c with
      | some n, some d => some (n * 10 + d)
      | _, _ => none) (some 0)

/-- TextCarousel::value: the selected item parsed as a number. The source
indexes the item list and unwraps the parse (its items are always
two-digit numerals); the embedding uses the total variants. -/
noncomputable def TextCarousel.value (c : TextCarousel) : ℕ :=
  let index : ℤ := rustRound (-c.scroll_offset / c.item_height)
  let idx := (index % (c.items.length : ℤ)).toNat
  (parseNat (c.items.getD idx "")).getD 0

/-- TextCarousel::scroll_to: jump to the item at the given index. -/
noncomputable def TextCarousel.scroll_to (c : TextCarousel) (index : ℕ) : TextCarousel :=
  { c with scroll_offset := -c.item_height * (index : ℝ), dirty := true }

/-! ## Window-level actions and effects -/

/-- Window touch actions triggerable by downstream UIs
(ui/window.rs TouchAction). -/
inductive WindowTouchAction where
  | none
  | listAlarmsView
  | createAlarmView
deriving DecidableEq

/-- Observable calls to external collaborators (compositor, renderer,
task pool, logger), recorded in order as an effect trace. -/
inductive Effect where
  | setDestination (width height : ℕ)
  | damage (width height : ℕ)
  | render
  | frameRequest
  | commit
  | flush
  | setOpaqueRegion (width height : ℕ)
  | spawnRemove (id : String)
  | spawnAdd (alarm : Alarm)
  | playAttempt
  | logPlayError
deriving DecidableEq

/-! ## CreateAlarm (src/ui/create_alarm.rs) -/

/-- Intention of a touch sequence in the creation view. -/
inductive CATouchAction where
  | none
  | confirm
  | back
  | minuteCarousel
  | hourCarousel
  | quickAction1
  | quickAction2
deriving DecidableEq

/-- Touch event tracking of the creation view. -/
structure CATouchState where
  action : CATouchAction
  start : PointR
  point : PointR

/-- Alarm creation UI state. -/
structure CreateAlarm where
  touch_state : CATouchState
  minute_carousel : TextCarousel
  hour_carousel : TextCarousel
  size : SizeF
  scale : ℝ
  dirty : Bool

/-- Zero-pad a number to two digits, the source's format string 0>2. -/
def pad2 (n : ℕ) : String :=
  if n < 10 then "0" ++ toString n else toString n

/-- The hour wheel's items, 00 to 23. -/
def hourItems : List String :=
  (List.range 24).map pad2

/-- The minute wheel's items, 00 to 55 in steps of five. -/
def minuteItems : List String :=
  (List.range 12).map (fun i => pad2 (5 * i))

/-- CreateAlarm's Default instance. -/
def CreateAlarm.init : CreateAlarm :=
  { touch_state := { action := .none, start := { x := 0, y := 0 }, point := { x := 0, y := 0 } }
    minute_carousel := TextCarousel.new minuteItems
    hour_carousel := TextCarousel.new hourItems
    size := { width := 0, height := 0 }
    scale := 1
    dirty := true }

/-- CreateAlarm::back_button_rect. -/
noncomputable def CreateAlarm.back_button_rect (size : SizeF) (scale : ℝ) : RectR :=
  let button_size := BUTTON_HEIGHT * scale
  let padding := OUTSIDE_PADDING * scale
  let y := size.height - button_size - padding
  let x := padding
  { left := x, top := y, right := x + button_size, bottom := y + button_size }

/-- CreateAlarm::confirm_button_rect. -/
noncomputable def CreateAlarm.confirm_button_rect (size : SizeF) (scale : ℝ) : RectR :=
  let button_size := BUTTON_HEIGHT * scale
  let padding := OUTSIDE_PADDING * scale
  let y := size.height - button_size - padding
  let x := size.width - button_size - padding
  { left := x, top := y, right := x + button_size, bottom := y + button_size }

/-- CreateAlarm::quick_action_rect_1. -/
noncomputable def CreateAlarm.quick_action_rect_1 (size : SizeF) (scale : ℝ) : RectR :=
  let back_rect := CreateAlarm.back_button_rect size scale
  let button_padding := BUTTON_PADDING * scale
  let space := CAROUSEL_SPACE * scale
  let height := back_rect.bottom - back_rect.top
  let y := back_rect.top - button_padding - height
  let left := OUTSIDE_PADDING * scale
  let right := (size.width - space) / 2
  { left := left, top := y, right := right, bottom := y + height }

/-- CreateAlarm::quick_action_rect_2. -/
noncomputable def CreateAlarm.quick_action_rect_2 (size : SizeF) (scale : ℝ) : RectR :=
  let back_rect := CreateAlarm.back_button_rect size scale
  let button_padding := BUTTON_PADDING * scale
  let space := CAROUSEL_SPACE * scale
  let height := back_rect.bottom - back_rect.top
  let y := back_rect.top - button_padding - height
  let left := (size.width + space) / 2
  let right := size.width - OUTSIDE_PADDING * scale
  { left := left, top := y, right := right, bottom := y + height }

/-- CreateAlarm::hour_carousel_rect. -/
noncomputable def CreateAlarm.hour_carousel_rect (size : SizeF) (scale : ℝ) : RectR :=
  let quick_rect := CreateAlarm.quick_action_rect_1 size scale
  let button_padding := BUTTON_PADDING * scale
  let item_size := CAROUSEL_ITEM_SIZE * scale
  let space := CAROUSEL_SPACE * scale
  let height := item_size * 3
  let y := quick_rect.top - button_padding - height
  let x := size.width / 2 - item_size - space / 2
  { left := x, top := y, right := x + item_size, bottom := y + height }

/-- CreateAlarm::minute_carousel_rect. -/
noncomputable def CreateAlarm.minute_carousel_rect (size : SizeF) (scale : ℝ) : RectR :=
  let hour_rect := CreateAlarm.hour_carousel_rect size scale
  let item_size := CAROUSEL_ITEM_SIZE * scale
  let space := CAROUSEL_SPACE * scale
  let x := size.width / 2 + space / 2
  { left := x, top := hour_rect.top, right := x + item_size, bottom := hour_rect.bottom }

/-- CreateAlarm::draw, state changes only (painting is presentation and
out of the model's scope). -/
noncomputable def CreateAlarm.draw (ca : CreateAlarm) (size : SizeF) (scale : ℝ)
    (input : InputCfg) (now : ℝ) : CreateAlarm :=
  { ca with dirty := false
            size := size
            scale := scale
            hour_carousel := ca.hour_carousel.draw scale input now
            minute_carousel := ca.minute_carousel.draw scale input now }

/-- CreateAlarm::dirty. -/
def CreateAlarm.dirtyProp (ca : CreateAlarm) : Prop :=
  ca.dirty = true ∨ ca.hour_carousel.dirtyProp ∨ ca.minute_carousel.dirtyProp

/-- CreateAlarm::reset: scroll the wheels to five minutes from now. -/
noncomputable def CreateAlarm.reset (ca : CreateAlarm) (nowDT : LocalDT) : CreateAlarm :=
  let time := nowDT.tod.addMinutes 5
  { ca with minute_carousel := ca.minute_carousel.scroll_to (time.minute / 5)
            hour_carousel := ca.hour_carousel.scroll_to time.hour }

open Classical in
/-- CreateAlarm::touch_down. -/
noncomputable def CreateAlarm.touch_down (ca : CreateAlarm) (logical_point : PointR) :
    CreateAlarm :=
  let point := logical_point.smul ca.scale
  let ts := { ca.touch_state with point := point, start := point }
  if rect_contains (CreateAlarm.confirm_button_rect ca.size ca.scale) point then
    { ca with touch_state := { ts with action := .confirm } }
  else if rect_contains (CreateAlarm.back_button_rect ca.size ca.scale) point then
    { ca with touch_state := { ts with action := .back } }
  else if rect_contains (CreateAlarm.minute_carousel_rect ca.size ca.scale) point then
    { ca with touch_state := { ts with action := .minuteCarousel }
              minute_carousel := ca.minute_carousel.touch_down point }
  else if rect_contains (CreateAlarm.hour_carousel_rect ca.size ca.scale) point then
    { ca with touch_state := { ts with action := .hourCarousel }
              hour_carousel := ca.hour_carousel.touch_down point }
  else if rect_contains (CreateAlarm.quick_action_rect_1 ca.size ca.scale) point then
    { ca with touch_state := { ts with action := .quickAction1 } }
  else if rect_contains (CreateAlarm.quick_action_rect_2 ca.size ca.scale) point then
    { ca with touch_state := { ts with action := .quickAction2 } }
  else
    { ca with touch_state := { ts with action := .none } }

/-- CreateAlarm::touch_motion. -/
noncomputable def CreateAlarm.touch_motion (ca : CreateAlarm) (logical_point : PointR) :
    CreateAlarm :=
  let point := logical_point.smul ca.scale
  let ca := { ca with touch_state := { ca.touch_state with point := point } }
  match ca.touch_state.action with
  | .minuteCarousel => { ca with minute_carousel := ca.minute_carousel.touch_motion point }
  | .hourCarousel => { ca with hour_carousel := ca.hour_carousel.touch_motion point }
  | _ => ca

/-- CreateAlarm::alarm_time: the next occurrence of the selected time. -/
noncomputable def CreateAlarm.alarm_time (ca : CreateAlarm) (nowDT : LocalDT) : LocalDT :=
  let time : Tod := { hour := ca.hour_carousel.value, minute := ca.minute_carousel.value,
                      second := 0 }
  let date_time := nowDT
  let date_time :=
    if time.timeLt date_time.tod then { date_time with day := date_time.day + 1 }
    else date_time
  { date_time with tod := time }

/-- CreateAlarm::add_minutes: add an interval to the current selection. -/
noncomputable def CreateAlarm.add_minutes (ca : CreateAlarm) (interval : ℕ) : CreateAlarm :=
  let minutes := ca.minute_carousel.value
  let hours := ca.hour_carousel.value
  let new_minutes := (minutes + interval) % 60
  let new_hours := hours + (minutes + interval) / 60
  { ca with minute_carousel := ca.minute_carousel.scroll_to (new_minutes / 5)
            hour_carousel := ca.hour_carousel.scroll_to new_hours }

open Classical in
/-- CreateAlarm::touch_up: returns the updated view state, the requested
window action, and the spawned fire-and-forget effects. -/
noncomputable def CreateAlarm.touch_up (ca : CreateAlarm) (input_config : InputCfg)
    (env : Env) : CreateAlarm × WindowTouchAction × List Effect :=
  match ca.touch_state.action with
  | .back =>
    if rect_contains (CreateAlarm.back_button_rect ca.size ca.scale) ca.touch_state.point
    then (ca, .listAlarmsView, [])
    else (ca, .none, [])
  | .confirm =>
    if rect_contains (CreateAlarm.confirm_button_rect ca.size ca.scale) ca.touch_state.point
    then
      let alarm_time := ca.alarm_time env.nowDT
      let unix_time := alarm_time.unixSeconds
      (ca, .listAlarmsView,
        [.spawnAdd { id := env.uuid, unix_time := unix_time, ring_duration := RING_DURATION }])
    else (ca, .none, [])
  | .quickAction1 => (ca.add_minutes input_config.quick_minutes_1, .none, [])
  | .quickAction2 => (ca.add_minutes input_config.quick_minutes_2, .none, [])
  | .minuteCarousel => ({ ca with minute_carousel := ca.minute_carousel.touch_up }, .none, [])
  | .hourCarousel => ({ ca with hour_carousel := ca.hour_carousel.touch_up }, .none, [])
  | .none => (ca, .none, [])

/-! ## ListAlarms (src/ui/list_alarms.rs) -/

/-- Intention of a touch sequence in the alarm list view. -/
inductive LATouchAction where
  | none
  | createAlarm
  | alarmTap (id : String) (delete : Bool)
  | alarmDrag
deriving DecidableEq

/-- Touch event tracking of the alarm list view. -/
structure LATouchState where
  action : LATouchAction
  start : PointR
  point : PointR

/-- Alarm list UI state. -/
structure ListAlarms where
  velocity : ScrollVelocity
  touch_state : LATouchState
  scroll_offset : ℝ
  size : SizeF
  scale : ℝ
  alarms : List Alarm
  dirty : Bool

/-- ListAlarms's Default instance. -/
def ListAlarms.init : ListAlarms :=
  { velocity := ScrollVelocity.init
    touch_state := { action := .none, start := { x := 0, y := 0 }, point := { x := 0, y := 0 } }
    scroll_offset := 0
    size := { width := 0, height := 0 }
    scale := 1
    alarms := []
    dirty := true }

/-- ListAlarms::new_button_rect. -/
noncomputable def ListAlarms.new_button_rect (size : SizeF) (scale : ℝ) : RectR :=
  let padding := OUTSIDE_PADDING * scale
  let button_width := size.width - 2 * padding
  let button_height := BUTTON_HEIGHT * scale
  let y := size.height - button_height - padding
  let x := (size.width - button_width) / 2
  { left := x, top := y, right := x + button_width, bottom := y + button_height }

/-- ListAlarms::last_alarm_rect. -/
noncomputable def ListAlarms.last_alarm_rect (size : SizeF) (scale : ℝ) : RectR :=
  let new_rect := ListAlarms.new_button_rect size scale
  let outside_padding := OUTSIDE_PADDING * scale
  let alarms_padding := ALARMS_PADDING * scale
  let button_padding := BUTTON_PADDING * scale
  let width := size.width - 2 * outside_padding - 2 * alarms_padding
  let height := ALARM_HEIGHT * scale
  let y := new_rect.top - button_padding - height
  let x := outside_padding + alarms_padding
  { left := x, top := y, right := x + width, bottom := y + height }

/-- ListAlarms::delete_alarm_rect. -/
noncomputable def ListAlarms.delete_alarm_rect (size : SizeF) (scale : ℝ) : RectR :=
  let alarm_rect := ListAlarms.last_alarm_rect size scale
  let s := DELETE_SIZE * scale
  let padding := (alarm_rect.bottom - alarm_rect.top - s) / 2
  let x := alarm_rect.right - alarm_rect.left - padding - s
  let y := padding
  { left := x, top := y, right := x + s, bottom := y + s }

open Classical in
/-- ListAlarms::alarm_at: the alarm at a physical location, with a flag
telling whether the point is inside the delete button. The source
indexes `alarms[index]` directly (panicking on an impossible
out-of-range index); the embedding uses the total `get?`. -/
noncomputable def ListAlarms.alarm_at (la : ListAlarms) (point : PointR) :
    Option (Alarm × Bool) :=
  let last_alarm_rect := ListAlarms.last_alarm_rect la.size la.scale
  if point.x < last_alarm_rect.left ∨ last_alarm_rect.right ≤ point.x ∨
      last_alarm_rect.bottom ≤ point.y then
    none
  else
    let y := point.y - la.scroll_offset
    let alarm_height := last_alarm_rect.bottom - last_alarm_rect.top
    let bottom_relative := last_alarm_rect.bottom - y
    let rindex := (⌊bottom_relative / alarm_height⌋).toNat
    let index := la.alarms.length - (rindex + 1)
    let delete_alarm_rect := ListAlarms.delete_alarm_rect la.size la.scale
    let relative_x := point.x - last_alarm_rect.left
    let relative_y := alarm_height - 1 - rustRem bottom_relative alarm_height
    let delete := decide (rect_contains delete_alarm_rect { x := relative_x, y := relative_y })
    (la.alarms.get? index).map (fun a => (a, delete))

/-- ListAlarms::max_scroll_offset (a usize in the source). -/
noncomputable def ListAlarms.max_scroll_offset (la : ListAlarms) : ℕ :=
  let last_alarm_rect := ListAlarms.last_alarm_rect la.size la.scale
  let button_padding := BUTTON_PADDING * la.scale
  let alarm_height := last_alarm_rect.bottom - last_alarm_rect.top
  let total_height := alarm_height * (la.alarms.length : ℝ)
  let max_offset := total_height - last_alarm_rect.bottom + button_padding
  (max ⌈max_offset⌉ 0).toNat

open Classical in
/-- ListAlarms::clamp_scroll_offset: clamp into [0, max] and cancel the
velocity when the limit was hit. -/
noncomputable def ListAlarms.clamp_scroll_offset (la : ListAlarms) : ListAlarms :=
  let old_offset := la.scroll_offset
  let max_offset : ℝ := (la.max_scroll_offset : ℝ)
  let la := { la with scroll_offset := min (max la.scroll_offset 0) max_offset }
  if old_offset ≠ la.scroll_offset then
    { la with velocity := la.velocity.set 0, dirty := true }
  else la

/-- ListAlarms::draw, state changes only (painting is presentation and
out of the model's scope). -/
noncomputable def ListAlarms.draw (la : ListAlarms) (size : SizeF) (scale : ℝ)
    (input : InputCfg) (now : ℝ) : ListAlarms :=
  let la := { la with dirty := false, size := size, scale := scale }
  let applied := ScrollVelocity.apply input la.velocity la.scroll_offset now
  let la := { la with velocity := applied.1, scroll_offset := applied.2 }
  la.clamp_scroll_offset

/-- ListAlarms::dirty. -/
def ListAlarms.dirtyProp (la : ListAlarms) : Prop :=
  la.dirty = true ∨ la.velocity.is_moving

/-- ListAlarms::set_alarms: replace the alarm list and flag dirty. -/
def ListAlarms.set_alarms (la : ListAlarms) (alarms : List Alarm) : ListAlarms :=
  { la with alarms := alarms, dirty := true }

open Classical in
/-- ListAlarms::touch_down. -/
noncomputable def ListAlarms.touch_down (la : ListAlarms) (logical_point : PointR) :
    ListAlarms :=
  let la := { la with velocity := la.velocity.set 0 }
  let point := logical_point.smul la.scale
  let ts := { la.touch_state with point := point, start := point }
  if rect_contains (ListAlarms.new_button_rect la.size la.scale) point then
    { la with touch_state := { ts with action := .createAlarm } }
  else
    match la.alarm_at point with
    | some (alarm, delete) =>
      { la with touch_state := { ts with action := .alarmTap alarm.id delete } }
    | none => { la with touch_state := { ts with action := .none } }

open Classical in
/-- ListAlarms::touch_motion: scroll the list once the tap distance
limit is exceeded. -/
noncomputable def ListAlarms.touch_motion (la : ListAlarms) (config : Config)
    (logical_point : PointR) : ListAlarms :=
  let point := logical_point.smul la.scale
  let old_point := la.touch_state.point
  let la := { la with touch_state := { la.touch_state with point := point } }
  match la.touch_state.action with
  | .alarmTap _ _ | .alarmDrag =>
    let max_tap_distance := config.input.max_tap_distance
    let dx := la.touch_state.point.x - la.touch_state.start.x
    let dy := la.touch_state.point.y - la.touch_state.start.y
    if dx ^ 2 + dy ^ 2 ≤ max_tap_distance then la
    else
      let la := { la with touch_state := { la.touch_state with action := .alarmDrag } }
      let delta := la.touch_state.point.y - old_point.y
      let la := { la with velocity := la.velocity.set delta }
      let old_offset := la.scroll_offset
      let la := { la with scroll_offset := la.scroll_offset + delta }
      let la := la.clamp_scroll_offset
      { la with dirty := la.dirty || decide (la.scroll_offset ≠ old_offset) }
  | _ => la

open Classical in
/-- ListAlarms::touch_up: the stored action is taken (reset to None);
deleting taps spawn a fire-and-forget removal task. -/
noncomputable def ListAlarms.touch_up (la : ListAlarms) :
    ListAlarms × WindowTouchAction × List Effect :=
  let action := la.touch_state.action
  let la := { la with touch_state := { la.touch_state with action := .none } }
  match action with
  | .createAlarm =>
    if rect_contains (ListAlarms.new_button_rect la.size la.scale) la.touch_state.point
    then (la, .createAlarmView, [])
    else (la, .none, [])
  | .alarmTap id true => (la, .none, [.spawnRemove id])
  | _ => (la, .none, [])

/-! ## RingAlarm (src/ui/ring_alarm.rs) -/

/-- Intention of a touch sequence in the ringing view. -/
inductive RATouchAction where
  | none
  | stop
deriving DecidableEq

/-- Touch event tracking of the ringing view. -/
structure RATouchState where
  action : RATouchAction
  point : PointR

/-- Active ringing alarm UI state. -/
structure RingAlarm where
  touch_state : RATouchState
  size : SizeF
  scale : ℝ
  dirty : Bool

/-- RingAlarm's Default instance. -/
def RingAlarm.init : RingAlarm :=
  { touch_state := { action := .none, point := { x := 0, y := 0 } }
    size := { width := 0, height := 0 }
    scale := 1
    dirty := true }

/-- RingAlarm::stop_button_rect. -/
noncomputable def RingAlarm.stop_button_rect (size : SizeF) (scale : ℝ) : RectR :=
  let padding := OUTSIDE_PADDING * scale
  let button_width := size.width - 2 * padding
  let button_height := BUTTON_HEIGHT * scale
  let y := size.height - button_height - padding
  let x := (size.width - button_width) / 2
  { left := x, top := y, right := x + button_width, bottom := y + button_height }

/-- RingAlarm::draw, state changes only. -/
def RingAlarm.draw (ra : RingAlarm) (size : SizeF) (scale : ℝ) : RingAlarm :=
  { ra with dirty := false, size := size, scale := scale }

/-- RingAlarm::dirty. -/
def RingAlarm.dirtyProp (ra : RingAlarm) : Prop :=
  ra.dirty = true

open Classical in
/-- RingAlarm::touch_down. -/
noncomputable def RingAlarm.touch_down (ra : RingAlarm) (logical_point : PointR) :
    RingAlarm :=
  let point := logical_point.smul ra.scale
  let ts := { ra.touch_state with point := point }
  if rect_contains (RingAlarm.stop_button_rect ra.size ra.scale) point then
    { ra with touch_state := { ts with action := .stop } }
  else
    { ra with touch_state := { ts with action := .none } }

/-- RingAlarm::touch_motion. -/
noncomputable def RingAlarm.touch_motion (ra : RingAlarm) (logical_point : PointR) :
    RingAlarm :=
  { ra with touch_state := { ra.touch_state with point := logical_point.smul ra.scale } }

open Classical in
/-- RingAlarm::touch_up: releasing on the stop button returns to the
list view, which drops the playing sound. -/
noncomputable def RingAlarm.touch_up (ra : RingAlarm) : RingAlarm × WindowTouchAction :=
  match ra.touch_state.action with
  | .stop =>
    if rect_contains (RingAlarm.stop_button_rect ra.size ra.scale) ra.touch_state.point
    then (ra, .listAlarmsView)
    else (ra, .none)
  | .none => (ra, .none)

/-! ## RenderConfig (src/ui/mod.rs) -/

/-- Shared render config cache: colours, font values, and the scale-
dependent cached sizes the source stores in its skia paints and text
styles. -/
structure RenderConfig where
  background : Color
  font_family : String
  font_size : ℝ
  text_style_font_size : ℝ
  heading_font_size : ℝ
  icon_stroke_width : ℝ
  button_color : Color
  text_color : Color
  icon_color : Color
  input_config : InputCfg

/-- Heading text size factor over the normal font size. -/
def HEADING_SIZE : ℝ := 4

/-- Stroke width at scale 1. -/
def STROKE_WIDTH : ℝ := 2

/-- RenderConfig::new. -/
def RenderConfig.new (config : Config) : RenderConfig :=
  { background := config.colors.background
    font_family := config.font.family
    font_size := config.font.size
    text_style_font_size := config.font.size
    heading_font_size := config.font.size * HEADING_SIZE
    icon_stroke_width := STROKE_WIDTH
    button_color := config.colors.alt_background
    text_color := config.colors.foreground
    icon_color := config.colors.foreground
    input_config := config.input }

open Classical in
/-- RenderConfig::update_config: apply changed values and report whether
a redraw is required (input changes update state without flagging). -/
noncomputable def RenderConfig.update_config (rc : RenderConfig) (config : Config)
    (scale : ℝ) : RenderConfig × Bool :=
  let dirty := false
  let p1 :=
    if config.font.family ≠ rc.font_family then
      ({ rc with font_family := config.font.family }, true)
    else (rc, dirty)
  let p2 :=
    if config.font.size ≠ p1.1.font_size then
      ({ p1.1 with heading_font_size := config.font.size * scale * HEADING_SIZE
                   text_style_font_size := config.font.size * scale
                   font_size := config.font.size }, true)
    else p1
  let p3 :=
    if p2.1.button_color ≠ config.colors.alt_background then
      ({ p2.1 with button_color := config.colors.alt_background }, true)
    else p2
  let p4 :=
    if p3.1.text_color ≠ config.colors.foreground then
      ({ p3.1 with text_color := config.colors.foreground
                   icon_color := config.colors.foreground }, true)
    else p3
  let p5 :=
    if p4.1.background ≠ config.colors.background then
      ({ p4.1 with background := config.colors.background }, true)
    else p4
  if p5.1.input_config ≠ config.input then
    ({ p5.1 with input_config := config.input }, p5.2)
  else p5

/-! ## Window (src/ui/window.rs)

External handles (Wayland connection, queue, EGL renderer, canvas,
viewport) are opaque collaborators; their invocations appear in the
effect trace. The AlarmSound handle owned by the ringing view is likewise
opaque and carries no state of its own. -/

/-- Available UI views. -/
inductive View where
  | listAlarms
  | createAlarm
  | ringAlarm (alarm : Alarm)
deriving DecidableEq

/-- Wayland window state. -/
structure Window where
  initial_draw_done : Bool
  create_alarm : CreateAlarm
  list_alarms : ListAlarms
  ring_alarm : RingAlarm
  view : View
  render_config : RenderConfig
  stalled : Bool
  dirty : Bool
  size : SizeU
  scale : ℝ

/-- Window::new (the parts that are window state; protocol setup calls
are construction-time effects outside the claims' scope). -/
def Window.new (config : Config) : Window :=
  { initial_draw_done := false
    create_alarm := CreateAlarm.init
    list_alarms := ListAlarms.init
    ring_alarm := RingAlarm.init
    view := .listAlarms
    render_config := RenderConfig.new config
    stalled := true
    dirty := true
    size := { width := 360, height := 720 }
    scale := 1 }

/-- Window::dirty: the window-level dirty bit OR the active view's own
dirtiness. -/
def Window.dirtyProp (w : Window) : Prop :=
  w.dirty = true ∨
    match w.view with
    | .listAlarms => w.list_alarms.dirtyProp
    | .createAlarm => w.create_alarm.dirtyProp
    | .ringAlarm _ => w.ring_alarm.dirtyProp

open Classical in
/-- Window::draw: stall when nothing is dirty; otherwise clear the dirty
bit, update the viewport destination, damage the whole surface, render
the active view, request the next frame-completion notification, and
commit. -/
noncomputable def Window.draw (w : Window) (env : Env) : Window × List Effect :=
  if ¬w.dirtyProp then
    ({ w with stalled := true }, [])
  else
    let w := { w with initial_draw_done := true, dirty := false }
    let size := w.size.scaleBy w.scale
    let w :=
      match w.view with
      | .listAlarms =>
        { w with list_alarms :=
            w.list_alarms.draw size w.scale w.render_config.input_config env.now }
      | .createAlarm =>
        { w with create_alarm :=
            w.create_alarm.draw size w.scale w.render_config.input_config env.now }
      | .ringAlarm _ =>
        { w with ring_alarm := w.ring_alarm.draw size w.scale }
    (w, [.setDestination w.size.width w.size.height,
         .damage w.size.width w.size.height,
         .render, .frameRequest, .commit])

/-- Window::unstall: a no-op unless stalled; otherwise clear the stall
flag, draw immediately, and flush the connection. -/
noncomputable def Window.unstall (w : Window) (env : Env) : Window × List Effect :=
  if w.stalled then
    let r := Window.draw { w with stalled := false } env
    (r.1, r.2 ++ [.flush])
  else (w, [])

/-- Window::set_alarms. -/
noncomputable def Window.set_alarms (w : Window) (alarms : List Alarm) (env : Env) :
    Window × List Effect :=
  Window.unstall { w with list_alarms := w.list_alarms.set_alarms alarms } env

/-- Window::ring: spawn the fire-and-forget removal of the alarm's taken
id, attempt audio playback, and on success switch to the ringing view,
flag dirty, and unstall; on playback failure log and return. -/
noncomputable def Window.ring (w : Window) (alarm : Alarm) (env : Env) :
    Window × List Effect :=
  if env.playOk then
    let r := Window.unstall
      { w with view := .ringAlarm { alarm with id := "" }, dirty := true } env
    (r.1, .spawnRemove alarm.id :: .playAttempt :: r.2)
  else
    (w, [.spawnRemove alarm.id, .playAttempt, .logPlayError])

open Classical in
/-- Window::set_size: ignore equal sizes; otherwise store the size, flag
dirty, update the opaque region (when the compositor grants one), and
unstall. -/
noncomputable def Window.set_size (w : Window) (size : SizeU) (env : Env) :
    Window × List Effect :=
  if w.size = size then (w, [])
  else
    let w := { w with size := size, dirty := true }
    let region : List Effect :=
      if env.regionOk then [.setOpaqueRegion size.width size.height] else []
    let r := w.unstall env
    (r.1, region ++ r.2)

open Classical in
/-- Window::set_scale_factor: ignore equal scales; otherwise store the
scale, flag dirty, refresh the scale-cached render config values, and
unstall. -/
noncomputable def Window.set_scale_factor (w : Window) (scale : ℝ) (env : Env) :
    Window × List Effect :=
  if w.scale = scale then (w, [])
  else
    let w := { w with scale := scale, dirty := true }
    let rc := w.render_config
    let w := { w with render_config :=
        { rc with text_style_font_size := rc.font_size * scale
                  icon_stroke_width := STROKE_WIDTH * scale } }
    w.unstall env

/-- Window::update_config: apply the config to the render cache, and on
any redraw-relevant change flag dirty and unstall. -/
noncomputable def Window.update_config (w : Window) (config : Config) (env : Env) :
    Window × List Effect :=
  let r := RenderConfig.update_config w.render_config config w.scale
  if r.2 then Window.unstall { w with render_config := r.1, dirty := true } env
  else ({ w with render_config := r.1 }, [])

/-- Window::touch_down: dispatch to the active view, then unstall. -/
noncomputable def Window.touch_down (w : Window) (point : PointR) (env : Env) :
    Window × List Effect :=
  let w :=
    match w.view with
    | .listAlarms => { w with list_alarms := w.list_alarms.touch_down point }
    | .createAlarm => { w with create_alarm := w.create_alarm.touch_down point }
    | .ringAlarm _ => { w with ring_alarm := w.ring_alarm.touch_down point }
  w.unstall env

/-- Window::touch_motion: dispatch to the active view, then unstall. -/
noncomputable def Window.touch_motion (w : Window) (config : Config) (point : PointR)
    (env : Env) : Window × List Effect :=
  let w :=
    match w.view with
    | .listAlarms => { w with list_alarms := w.list_alarms.touch_motion config point }
    | .createAlarm => { w with create_alarm := w.create_alarm.touch_motion point }
    | .ringAlarm _ => { w with ring_alarm := w.ring_alarm.touch_motion point }
  w.unstall env

/-- Execution of the window action requested by a view's touch_up,
followed by the mandatory unstall (the tail of Window::touch_up). -/
noncomputable def Window.finish_touch (w : Window) (action : WindowTouchAction)
    (effects : List Effect) (env : Env) : Window × List Effect :=
  let w :=
    match action with
    | .none => w
    | .listAlarmsView => { w with view := .listAlarms, dirty := true }
    | .createAlarmView =>
      { w with view := .createAlarm, create_alarm := w.create_alarm.reset env.nowDT,
               dirty := true }
  let r := w.unstall env
  (r.1, effects ++ r.2)

/-- Window::touch_up: dispatch to the active view, execute the requested
window action, then unstall. -/
noncomputable def Window.touch_up (w : Window) (env : Env) : Window × List Effect :=
  match w.view with
  | .listAlarms =>
    let r := w.list_alarms.touch_up
    Window.finish_touch { w with list_alarms := r.1 } r.2.1 r.2.2 env
  | .createAlarm =>
    let r := w.create_alarm.touch_up w.render_config.input_config env
    Window.finish_touch { w with create_alarm := r.1 } r.2.1 r.2.2 env
  | .ringAlarm _ =>
    let r := w.ring_alarm.touch_up
    Window.finish_touch { w with ring_alarm := r.1 } r.2 [] env

/-! ## Alarm events, the bridge worker, and the presentation loop
(src/main.rs) -/

/-- Alarm events produced by the subscription (the alarm crate's Event). -/
inductive AlarmEvent where
  | alarmsChanged (alarms : List Alarm)
  | ring (alarm : Alarm)
deriving DecidableEq

/-- The normalized copy the worker forwards over the channel
(`alarms.to_vec().into()` for AlarmsChanged; Ring passed through). -/
def normalizeEvent : AlarmEvent → AlarmEvent
  | .alarmsChanged alarms => .alarmsChanged alarms
  | .ring alarm => .ring alarm

/-- State of the bridge worker thread: the messages sent so far on the
channel, and whether its future has returned (returning drops the
sender, which closes the channel). -/
structure WorkerSt where
  sent : List AlarmEvent
  exited : Bool
deriving DecidableEq

/-- Start of the worker future: construct the Subscriber (an error is
logged and the future returns, closing the channel), else send the
initial snapshot. `ctor` is none when Subscriber::new failed, otherwise
the snapshot `subscriber.alarms().to_vec()`. -/
def workerInit (ctor : Option (List Alarm)) : WorkerSt :=
  match ctor with
  | none => { sent := [], exited := true }
  | some alarms => { sent := [.alarmsChanged alarms], exited := false }

/-- One iteration of the worker's forwarding loop: await
`subscriber.next()`; a Some event is normalized and sent, a None sends
nothing and the loop continues. -/
def workerIter (st : WorkerSt) (event : Option AlarmEvent) : WorkerSt :=
  if st.exited then st
  else
    match event with
    | some event => { st with sent := st.sent ++ [normalizeEvent event] }
    | none => st

/-- The worker after `n` loop iterations against the stream of
subscription results `next`. -/
def workerRun (ctor : Option (List Alarm)) (next : ℕ → Option AlarmEvent) :
    ℕ → WorkerSt
  | 0 => workerInit ctor
  | n + 1 => workerIter (workerRun ctor next n) (next n)

/-- Events delivered by one dispatch of the presentation loop's sources.
The channel events are handled by the closure in State::spawn_listener;
the remaining variants cover the other sources of the loop. -/
inductive LoopEvent where
  | channelMsg (event : AlarmEvent)
  | channelClosed
  | touchDown (point : PointR)
  | touchMotion (point : PointR)
  | touchUp
  | configure (size : SizeU)
  | scaleFactor (scale : ℝ)
  | configChanged (config : Config)
  | frameDone

/-- Presentation loop state: the window plus the termination flag. -/
structure LoopState where
  window : Window
  terminated : Bool

/-- Handling of the non-channel loop events.
Modelled from the spec: the Wayland and config event sources are wired
in wayland.rs and config.rs, which are not among the sources; per the
overview and the redraw-scheduler contract their handlers mutate window
state through the entry points embedded above (the frame-completion
callback calls draw), and none of them touches the termination flag. -/
noncomputable def handleOther (w : Window) (config : Config) (event : LoopEvent)
    (env : Env) : Window × List Effect :=
  match event with
  | .touchDown point => w.touch_down point env
  | .touchMotion point => w.touch_motion config point env
  | .touchUp => w.touch_up env
  | .configure size => w.set_size size env
  | .scaleFactor scale => w.set_scale_factor scale env
  | .configChanged config => w.update_config config env
  | _ => (w, [])

/-- One event dispatched to the loop state: the channel closure handler
sets the termination flag, channel messages go to the window, and every
other source goes through handleOther. -/
noncomputable def handleEvent (s : LoopState) (config : Config) (event : LoopEvent)
    (env : Env) : LoopState × List Effect :=
  match event with
  | .channelMsg (.alarmsChanged alarms) =>
    let r := s.window.set_alarms alarms env
    ({ s with window := r.1 }, r.2)
  | .channelMsg (.ring alarm) =>
    let r := s.window.ring alarm env
    ({ s with window := r.1 }, r.2)
  | .channelClosed => ({ s with terminated := true }, [])
  | .frameDone =>
    let r := s.window.draw env
    ({ s with window := r.1 }, r.2)
  | e =>
    let r := handleOther s.window config e env
    ({ s with window := r.1 }, r.2)

/-- The loop of run(): `while !state.terminated { event_loop.dispatch }`,
one pending event per dispatch cycle. Returns the final state and the
number of dispatch cycles executed. -/
noncomputable def runLoop (s : LoopState) (config : Config) :
    List (LoopEvent × Env) → LoopState × ℕ
  | [] => (s, 0)
  | (event, env) :: rest =>
    if s.terminated then (s, 0)
    else
      let r := runLoop (handleEvent s config event env).1 config rest
      (r.1, r.2 + 1)

/-! ## Pulseaudio volume raise (alarm/src/audio.rs)

The audio server is an environment: a stream of iterate results and a
stream of context states, both indexed by how many blocking dispatch
iterations have run so far. Commands sent to the server are traced. -/

/-- Result of one blocking `mainloop.iterate(true)`. -/
inductive IterateResult where
  | success (dispatched : ℕ)
  | quit (retval : ℤ)
  | err (code : ℕ)
deriving DecidableEq

/-- Pulseaudio context states (libpulse Context::get_state). -/
inductive PulseCtxState where
  | unconnected
  | connecting
  | authorizing
  | settingName
  | ready
  | failed
  | terminated
deriving DecidableEq

/-- A pulseaudio channel volume map: a channel count and one volume
value for all channels (ChannelVolumes::set sets the first `channels`
entries to the value). -/
structure ChannelVols where
  channels : ℕ
  volume : ℕ
deriving DecidableEq

/-- Volume::NORMAL.0 of libpulse. -/
def VOLUME_NORMAL : ℕ := 65536

/-- ChannelVolumes::CHANNELS_MAX of libpulse. -/
def CHANNELS_MAX : ℕ := 32

/-- Calls issued to the pulseaudio server, in order. -/
inductive PaCmd where
  | iterate
  | setSinkVolumeByIndex (index : ℕ) (volumes : ChannelVols)
  | disconnect
deriving DecidableEq

/-- Errors of the alarm crate surfaced by the audio module. -/
inductive PaError where
  | pulseaudioConnection
  | pulseaudio (code : ℕ)
deriving DecidableEq

/-- The audio-server environment: whether Mainloop::new and Context::new
succeed, the error raised by context.connect if any, the iterate
results, and the context state observed after each completed dispatch. -/
structure PaEnv where
  mainloopOk : Bool
  contextOk : Bool
  connectErr : Option ℕ
  iter : ℕ → IterateResult
  ctxState : ℕ → PulseCtxState

/-- The connection handle: how many dispatch iterations have run. -/
structure Pulseaudio where
  dispatched : ℕ
deriving DecidableEq

/-- Pulseaudio::dispatch: blockingly dispatch the next event;
Quit and Err iterate results are connection errors. -/
def Pulseaudio.dispatch (env : PaEnv) (pa : Pulseaudio) : Except PaError Pulseaudio :=
  match env.iter pa.dispatched with
  | .success _ => .ok { dispatched := pa.dispatched + 1 }
  | .quit _ => .error .pulseaudioConnection
  | .err code => .error (.pulseaudio code)

/-- The wait-for-connection loop of Pulseaudio::connect: dispatch, then
inspect the context state; Ready breaks, Failed and Terminated abort.
The source loop is unbounded and blocking; `fuel` bounds the unrolling,
with none meaning the loop was still waiting. On an abort the freshly
constructed handle is dropped, which disconnects. -/
def connectLoop (env : PaEnv) (pa : Pulseaudio) : ℕ →
    Option (Except PaError Pulseaudio × List PaCmd)
  | 0 => none
  | fuel + 1 =>
    match Pulseaudio.dispatch env pa with
    | .error e => some (.error e, [.iterate, .disconnect])
    | .ok pa =>
      match env.ctxState pa.dispatched with
      | .ready => some (.ok pa, [.iterate])
      | .failed => some (.error .pulseaudioConnection, [.iterate, .disconnect])
      | .terminated => some (.error .pulseaudioConnection, [.iterate, .disconnect])
      | _ =>
        match connectLoop env pa fuel with
        | none => none
        | some (r, trace) => some (r, .iterate :: trace)

/-- Pulseaudio::connect: create the mainloop and context, connect, and
wait for the connection to be established. -/
def Pulseaudio.connect (env : PaEnv) (fuel : ℕ) :
    Option (Except PaError Pulseaudio × List PaCmd) :=
  if env.mainloopOk = false then some (.error .pulseaudioConnection, [])
  else if env.contextOk = false then some (.error .pulseaudioConnection, [])
  else
    match env.connectErr with
    | some code => some (.error (.pulseaudio code), [])
    | none => connectLoop env { dispatched := 0 } fuel

/-- Pulseaudio::set_volume: send one set-sink-volume command for sink
index 0 with all channels at NORMAL * volume / 100, then dispatch three
times (each `?`-propagated). -/
def Pulseaudio.set_volume (env : PaEnv) (pa : Pulseaudio) (volume : ℕ) :
    Except PaError Pulseaudio × List PaCmd :=
  let vol := VOLUME_NORMAL * volume / 100
  let volumes : ChannelVols := { channels := CHANNELS_MAX, volume := vol }
  let cmd := PaCmd.setSinkVolumeByIndex 0 volumes
  match Pulseaudio.dispatch env pa with
  | .error e => (.error e, [cmd, .iterate])
  | .ok pa =>
    match Pulseaudio.dispatch env pa with
    | .error e => (.error e, [cmd, .iterate, .iterate])
    | .ok pa =>
      match Pulseaudio.dispatch env pa with
      | .error e => (.error e, [cmd, .iterate, .iterate, .iterate])
      | .ok pa => (.ok pa, [cmd, .iterate, .iterate, .iterate])

/-- The volume-raise sequence of AlarmSound::play:
`Pulseaudio::connect().and_then(|pa| pa.set_volume(100))`, with the
handle dropped (disconnecting) when it existed. -/
def raiseVolume (env : PaEnv) (fuel : ℕ) :
    Option (Except PaError Unit × List PaCmd) :=
  match Pulseaudio.connect env fuel with
  | none => none
  | some (.error e, trace) => some (.error e, trace)
  | some (.ok pa, trace) =>
    let r := Pulseaudio.set_volume env pa 100
    some (r.1.map (fun _ => ()), trace ++ r.2 ++ [.disconnect])

/-- The dispatch iterations issued between the set-volume command and
the disconnect in a trace. -/
def itersBetweenCmdAndDisconnect (trace : List PaCmd) : ℕ :=
  let isSetCmd : PaCmd → Bool := fun c =>
    match c with
    | .setSinkVolumeByIndex _ _ => true
    | _ => false
  (((trace.dropWhile (fun c => !isSetCmd c)).drop 1).takeWhile
    (fun c => c ≠ PaCmd.disconnect)).count .iterate

/-! ## Concrete fixtures for witnesses and counterexamples -/

/-- A concrete input configuration with friction 9/10 and a 15ms tick. -/
noncomputable def input0 : InputCfg :=
  { velocity_friction := 9 / 10
    velocity_interval := 15
    max_tap_distance := 400
    quick_minutes_1 := 90
    quick_minutes_2 := 480 }

/-- A concrete application configuration. -/
noncomputable def cfg0 : Config :=
  { colors :=
      { background := { r := 0, g := 0, b := 0, a := 1 }
        alt_background := { r := 1 / 4, g := 1 / 4, b := 1 / 4, a := 1 }
        foreground := { r := 1, g := 1, b := 1, a := 1 } }
    font := { family := "Sans", size := 16 }
    input := input0 }

/-- A concrete environment. -/
noncomputable def env0 : Env :=
  { now := 0
    nowDT := { day := 19722, tod := { hour := 8, minute := 0, second := 0 }, utcOffset := 0 }
    uuid := "id0"
    playOk := true
    regionOk := true }

/-- The environment in which audio playback fails. -/
noncomputable def envFail : Env :=
  { env0 with playOk := false }

/-- A freshly created window with every dirty bit cleared: nothing needs
a redraw. -/
noncomputable def w0 : Window :=
  { Window.new cfg0 with
      dirty := false
      list_alarms := { ListAlarms.init with dirty := false } }

/-- A concrete alarm. -/
def alarm0 : Alarm :=
  { id := "a1", unix_time := 1700000000, ring_duration := 900 }

/-- A concrete touch point. -/
noncomputable def p0 : PointR :=
  { x := 10, y := 10 }

/-- A not-stalled window showing the ringing view. -/
noncomputable def w2 : Window :=
  { w0 with view := .ringAlarm alarm0, stalled := false }

/-- A window size different from w0's 360x720. -/
def sizeW : SizeU :=
  { width := 100, height := 200 }

/-- An input configuration with friction 1/2 and a 1ms tick, for the
deceleration trace. -/
noncomputable def input8 : InputCfg :=
  { velocity_friction := 1 / 2
    velocity_interval := 1
    max_tap_distance := 400
    quick_minutes_1 := 90
    quick_minutes_2 := 480 }

/-- An hour wheel at scale 1 resting on item 23. -/
noncomputable def hc9 : TextCarousel :=
  { TextCarousel.new hourItems with
      scroll_offset := -(CAROUSEL_ITEM_SIZE * 1) * ((23 : ℕ) : ℝ) }

/-- A minute wheel at scale 1 resting on item index 10, i.e. minute 50. -/
noncomputable def mc9 : TextCarousel :=
  { TextCarousel.new minuteItems with
      scroll_offset := -(CAROUSEL_ITEM_SIZE * 1) * ((10 : ℕ) : ℝ) }

/-- An alarm-creation view with hour 23 and minute 50 selected. -/
noncomputable def ca9 : CreateAlarm :=
  { CreateAlarm.init with hour_carousel := hc9, minute_carousel := mc9 }

/-- An audio-server environment in which every call succeeds and the
context is ready after the first dispatch. -/
def paEnv0 : PaEnv :=
  { mainloopOk := true
    contextOk := true
    connectErr := none
    iter := fun _ => .success 0
    ctxState := fun _ => .ready }

end Aevum

namespace Aevum

/-- On zero velocity, apply is a no-op. -/
theorem ScrollVelocity.apply_zero (input : InputCfg) (sv : ScrollVelocity)
    (off now : ℝ) (h : sv.velocity = 0) :
    ScrollVelocity.apply input sv off now = (sv, off) := by
  simp [ScrollVelocity.apply, h]

/-- With no baseline recorded, apply records `now` and changes nothing else. -/
theorem ScrollVelocity.apply_baseline (input : InputCfg) (sv : ScrollVelocity)
    (off now : ℝ) (hv : sv.velocity ≠ 0) (hb : sv.last_tick = none) :
    ScrollVelocity.apply input sv off now =
      ({ sv with last_tick := some now }, off) := by
  simp [ScrollVelocity.apply, hv, hb]

/-- On a real tick, apply performs the documented friction update. -/
theorem ScrollVelocity.apply_tick (input : InputCfg) (sv : ScrollVelocity)
    (off now lt : ℝ) (hv : sv.velocity ≠ 0) (hb : sv.last_tick = some lt) :
    ScrollVelocity.apply input sv off now =
      ((if 1 < |sv.velocity * input.velocity_friction ^
            ((now - lt) / (input.velocity_interval * 1000))| then
          { last_tick := some now,
            velocity := sv.velocity * input.velocity_friction ^
              ((now - lt) / (input.velocity_interval * 1000)) }
        else { last_tick := none, velocity := 0 }),
       off + sv.velocity *
          (1 - input.velocity_friction ^
            ((now - lt) / (input.velocity_interval * 1000) + 1)) /
          (1 - input.velocity_friction)) := by
  simp only [ScrollVelocity.apply, hv, hb, if_neg hv]
  by_cases h : 1 < |sv.velocity * input.velocity_friction ^
      ((now - lt) / (input.velocity_interval * 1000))| <;>
    simp [h]

/-- C4: for friction strictly between 0 and 1, ScrollVelocity::apply is
a no-op at zero velocity; with no recorded baseline it records the
current instant and leaves velocity and offset unchanged; otherwise,
with elapsed ticks t = elapsed_micros / tick_interval_micros, it adds
velocity * (1 - f^(t+1)) / (1 - f) to the offset, multiplies the
velocity by f^t, and then records the current instant as the new
baseline if the velocity's magnitude exceeds 1, else snaps the velocity
to exactly 0. -/
theorem apply_friction_update (input : InputCfg) (sv : ScrollVelocity)
    (off now : ℝ) (hf0 : 0 < input.velocity_friction)
    (hf1 : input.velocity_friction < 1) :
    (sv.velocity = 0 → ScrollVelocity.apply input sv off now = (sv, off)) ∧
    (sv.velocity ≠ 0 → sv.last_tick = none →
      ScrollVelocity.apply input sv off now =
        ({ sv with last_tick := some now }, off)) ∧
    (∀ lt, sv.velocity ≠ 0 → sv.last_tick = some lt →
      ScrollVelocity.apply input sv off now =
        (let t := (now - lt) / (input.velocity_interval * 1000)
         let v := sv.velocity * input.velocity_friction ^ t
         (if 1 < |v| then { last_tick := some now, velocity := v }
          else { last_tick := none, velocity := 0 },
          off + sv.velocity * (1 - input.velocity_friction ^ (t + 1)) /
            (1 - input.velocity_friction)))) :=
  ⟨fun h => ScrollVelocity.apply_zero input sv off now h,
   fun hv hb => ScrollVelocity.apply_baseline input sv off now hv hb,
   fun lt hv hb => ScrollVelocity.apply_tick input sv off now lt hv hb⟩

/-- Witness for C4 at friction 9/10, velocity 4, one elapsed tick. -/
theorem apply_friction_update_witness :
    0 < input0.velocity_friction ∧ input0.velocity_friction < 1 ∧
    ((⟨some 0, 4⟩ : ScrollVelocity).velocity = 0 →
      ScrollVelocity.apply input0 ⟨some 0, 4⟩ 0 15000 = (⟨some 0, 4⟩, 0)) ∧
    (∀ lt, (⟨some 0, 4⟩ : ScrollVelocity).velocity ≠ 0 →
      (⟨some 0, 4⟩ : ScrollVelocity).last_tick = some lt →
      ScrollVelocity.apply input0 ⟨some 0, 4⟩ 0 15000 =
        (let t := (15000 - lt) / (input0.velocity_interval * 1000)
         let v := 4 * input0.velocity_friction ^ t
         (if 1 < |v| then { last_tick := some 15000, velocity := v }
          else { last_tick := none, velocity := 0 },
          0 + 4 * (1 - input0.velocity_friction ^ (t + 1)) /
            (1 - input0.velocity_friction)))) := by
  have hf0 : 0 < input0.velocity_friction := by
    simp only [input0]
    norm_num
  have hf1 : input0.velocity_friction < 1 := by
    simp only [input0]
    norm_num
  have h := apply_friction_update input0 ⟨some 0, 4⟩ 0 15000 hf0 hf1
  exact ⟨hf0, hf1, h.1, h.2.2⟩

/-- C1: whenever the aggregated dirty predicate (window-level dirty bit
OR the active view's own dirtiness) is false, Window::draw sets the
stall flag and returns without rendering, without requesting a new
frame-completion notification, and without committing the surface. -/
theorem draw_clean_stalls (w : Window) (env : Env) (h : ¬w.dirtyProp) :
    w.draw env = ({ w with stalled := true }, []) := by
  simp [Window.draw, h]

/-- A draw that finds nothing dirty only sets the stall flag. -/
theorem Window.draw_not_dirty (w : Window) (env : Env) (h : ¬w.dirtyProp) :
    w.draw env = ({ w with stalled := true }, []) := by
  simp [Window.draw, h]

/-- A draw that finds something dirty commits exactly once and leaves
the stall flag alone. -/
theorem Window.draw_dirty_commit (w : Window) (env : Env) (h : w.dirtyProp) :
    (w.draw env).2.count Effect.commit = 1 ∧
      ((w.draw env).1).stalled = w.stalled := by
  cases hv : w.view <;>
    simp [Window.draw, h, hv, List.count_cons]

/-- The stall flag is irrelevant to the aggregated dirty predicate. -/
theorem Window.dirtyProp_stalled (w : Window) (b : Bool) :
    Window.dirtyProp { w with stalled := b } ↔ w.dirtyProp :=
  Iff.rfl

/-- C5: calling Window::unstall twice in a row with no intervening state
change performs at most one actual render: the two calls commit at most
one frame in total. -/
theorem unstall_twice_at_most_one_render (w : Window) (env1 env2 : Env) :
    ((w.unstall env1).2 ++ ((w.unstall env1).1.unstall env2).2).count
      Effect.commit ≤ 1 := by
  by_cases hs : w.stalled
  · by_cases hd : Window.dirtyProp { w with stalled := false }
    · have h1 := Window.draw_dirty_commit { w with stalled := false } env1 hd
      have hstalled : ((Window.draw { w with stalled := false } env1).1).stalled = false :=
        h1.2
      simp [Window.unstall, hs, hstalled, List.count_append, h1.1]
    · have h1 := Window.draw_not_dirty { w with stalled := false } env1 hd
      have h2 := Window.draw_not_dirty { w with stalled := false } env2 hd
      simp [Window.unstall, hs, h1, h2, List.count_append]
  · simp [Window.unstall, hs]

/-- Witness for C1 at a concrete window with all dirty state cleared. -/
theorem draw_clean_stalls_witness :
    ¬w0.dirtyProp ∧ Window.draw w0 env0 = ({ w0 with stalled := true }, []) := by
  have h : ¬w0.dirtyProp := by
    simp [Window.dirtyProp, ListAlarms.dirtyProp, ScrollVelocity.is_moving,
      w0, Window.new, ListAlarms.init, ScrollVelocity.init]
  exact ⟨h, draw_clean_stalls w0 env0 h⟩

/-- Counterexample to C2 as stated: a touch press on the ringing view
leaves the window-level dirty bit false; touch entry points never set
the window-level bit, dirtiness is tracked by the views. -/
theorem touch_down_without_window_dirty_bit :
    w2.dirty = false ∧ ((w2.touch_down p0 env0).1).dirty = false := by
  constructor
  · simp [w2, w0, Window.new]
  · simp [Window.touch_down, Window.unstall, w2, w0, Window.new]

/-- Executing a view's requested touch action always ends in an unstall,
and any view switch sets the window-level dirty bit first. -/
theorem Window.finish_touch_spec (w : Window) (action : WindowTouchAction)
    (effects : List Effect) (env : Env) :
    ∃ w' : Window, Window.finish_touch w action effects env =
        ((w'.unstall env).1, effects ++ (w'.unstall env).2) ∧
      (w'.view ≠ w.view → w'.dirty = true) := by
  cases action
  · exact ⟨w, rfl, fun h => absurd rfl h⟩
  · exact ⟨{ w with view := .listAlarms, dirty := true }, rfl, fun _ => rfl⟩
  · exact ⟨{ w with view := .createAlarm, create_alarm := w.create_alarm.reset env.nowDT, dirty := true }, rfl, fun _ => rfl⟩

/-- Window::touch_up always funnels into finish_touch and hence into an
unstall, with the window-level dirty bit set on any view switch. -/
theorem Window.touch_up_spec (w : Window) (env : Env) :
    ∃ (w' : Window) (pre : List Effect), w.touch_up env =
        ((w'.unstall env).1, pre ++ (w'.unstall env).2) ∧
      (w'.view ≠ w.view → w'.dirty = true) := by
  rcases w with ⟨idd, ca, la, ra, v, rc, st, d, sz, sc⟩
  cases v
  · obtain ⟨w', he, hd⟩ := Window.finish_touch_spec
      { initial_draw_done := idd, create_alarm := ca, list_alarms := la.touch_up.1,
        ring_alarm := ra, view := .listAlarms, render_config := rc, stalled := st,
        dirty := d, size := sz, scale := sc }
      la.touch_up.2.1 la.touch_up.2.2 env
    exact ⟨w', la.touch_up.2.2, he, hd⟩
  · obtain ⟨w', he, hd⟩ := Window.finish_touch_spec
      { initial_draw_done := idd, create_alarm := (ca.touch_up rc.input_config env).1,
        list_alarms := la, ring_alarm := ra, view := .createAlarm, render_config := rc,
        stalled := st, dirty := d, size := sz, scale := sc }
      (ca.touch_up rc.input_config env).2.1 (ca.touch_up rc.input_config env).2.2 env
    exact ⟨w', (ca.touch_up rc.input_config env).2.2, he, hd⟩
  case ringAlarm a =>
    obtain ⟨w', he, hd⟩ := Window.finish_touch_spec
      { initial_draw_done := idd, create_alarm := ca, list_alarms := la,
        ring_alarm := ra.touch_up.1, view := .ringAlarm a, render_config := rc,
        stalled := st, dirty := d, size := sz, scale := sc }
      ra.touch_up.2 [] env
    exact ⟨w', [], he, hd⟩

/-- C2 (amended): every external mutation entry point records its change
and then calls unstall — set_alarms sets the view-level dirty bit of the
alarm list (not the window-level bit), touch events update the active
view's state, a view switch in touch_up sets the window-level dirty bit,
and set_size / set_scale_factor / update_config set the window-level bit
and unstall exactly when the new value differs, returning unchanged
otherwise. -/
theorem entry_points_record_and_unstall (w : Window) (alarms : List Alarm)
    (point : PointR) (config : Config) (size : SizeU) (scale : ℝ) (env : Env) :
    (∃ w' : Window, w.set_alarms alarms env = w'.unstall env ∧
      w'.list_alarms.dirty = true ∧ w'.dirty = w.dirty) ∧
    (∃ w' : Window, w.touch_down point env = w'.unstall env ∧ w'.dirty = w.dirty) ∧
    (∃ w' : Window, w.touch_motion config point env = w'.unstall env ∧ w'.dirty = w.dirty) ∧
    (∃ (w' : Window) (pre : List Effect), w.touch_up env = ((w'.unstall env).1, pre ++ (w'.unstall env).2) ∧
      (w'.view ≠ w.view → w'.dirty = true)) ∧
    (w.size = size → w.set_size size env = (w, [])) ∧
    (w.size ≠ size → ∃ (w' : Window) (pre : List Effect), w.set_size size env =
        ((w'.unstall env).1, pre ++ (w'.unstall env).2) ∧
      w'.dirty = true ∧ w'.size = size) ∧
    (w.scale = scale → w.set_scale_factor scale env = (w, [])) ∧
    (w.scale ≠ scale → ∃ w' : Window, w.set_scale_factor scale env = w'.unstall env ∧
      w'.dirty = true ∧ w'.scale = scale) ∧
    ((RenderConfig.update_config w.render_config config w.scale).2 = true →
      ∃ w' : Window, w.update_config config env = w'.unstall env ∧ w'.dirty = true) ∧
    ((RenderConfig.update_config w.render_config config w.scale).2 = false →
      w.update_config config env =
        ({ w with render_config :=
            (RenderConfig.update_config w.render_config config w.scale).1 }, [])) := by
  refine ⟨⟨{ w with list_alarms := w.list_alarms.set_alarms alarms }, rfl, rfl, rfl⟩,
    ?_, ?_, ?_, ?_, ?_, ?_, ?_, ?_, ?_⟩
  · cases hv : w.view
    · exact ⟨{ w with list_alarms := w.list_alarms.touch_down point },
        by simp [Window.touch_down, hv], rfl⟩
    · exact ⟨{ w with create_alarm := w.create_alarm.touch_down point },
        by simp [Window.touch_down, hv], rfl⟩
    · exact ⟨{ w with ring_alarm := w.ring_alarm.touch_down point },
        by simp [Window.touch_down, hv], rfl⟩
  · cases hv : w.view
    · exact ⟨{ w with list_alarms := w.list_alarms.touch_motion config point },
        by simp [Window.touch_motion, hv], rfl⟩
    · exact ⟨{ w with create_alarm := w.create_alarm.touch_motion point },
        by simp [Window.touch_motion, hv], rfl⟩
    · exact ⟨{ w with ring_alarm := w.ring_alarm.touch_motion point },
        by simp [Window.touch_motion, hv], rfl⟩
  · exact Window.touch_up_spec w env
  · intro h
    simp [Window.set_size, h]
  · intro h
    exact ⟨{ w with size := size, dirty := true },
      if env.regionOk then [.setOpaqueRegion size.width size.height] else [],
      by simp [Window.set_size, h], rfl, rfl⟩
  · intro h
    simp [Window.set_scale_factor, h]
  · intro h
    refine ⟨{ w with scale := scale, dirty := true, render_config := { w.render_config with text_style_font_size := w.render_config.font_size * scale, icon_stroke_width := STROKE_WIDTH * scale } }, by simp [Window.set_scale_factor, h], rfl, rfl⟩
  · intro h
    exact ⟨{ w with render_config :=
        (RenderConfig.update_config w.render_config config w.scale).1, dirty := true },
      by simp [Window.update_config, h], rfl⟩
  · intro h
    simp [Window.update_config, h]

/-- Witness for C2 (amended): a resize of w0 to a different size goes
through the dirty bit and unstall. -/
theorem entry_points_record_and_unstall_witness :
    w0.size ≠ sizeW ∧
    (∃ (w' : Window) (pre : List Effect), w0.set_size sizeW env0 =
        ((w'.unstall env0).1, pre ++ (w'.unstall env0).2) ∧
      w'.dirty = true ∧ w'.size = sizeW) := by
  have hne : w0.size ≠ sizeW := by
    simp [w0, Window.new, sizeW]
  exact ⟨hne,
    (entry_points_record_and_unstall w0 [] p0 cfg0 sizeW 2 env0).2.2.2.2.2.1 hne⟩

/-- A draw emits either no effects (stall) or exactly the render batch:
viewport destination, damage, render, frame request, commit. -/
theorem Window.draw_effects (w : Window) (env : Env) :
    (w.draw env).2 = [] ∨
    (w.draw env).2 = [.setDestination w.size.width w.size.height,
      .damage w.size.width w.size.height, .render, .frameRequest, .commit] := by
  by_cases h : w.dirtyProp
  · right
    cases hv : w.view <;> simp [Window.draw, h, hv]
  · left
    simp [Window.draw, h]

/-- Unstalling never spawns an alarm-store removal task. -/
theorem Window.unstall_spawnRemove_count (w : Window) (env : Env) (s : String) :
    ((w.unstall env).2).count (Effect.spawnRemove s) = 0 := by
  by_cases hs : w.stalled
  · rcases Window.draw_effects { w with stalled := false } env with h | h <;>
      simp [Window.unstall, hs, h, List.count_append, List.count_cons]
  · simp [Window.unstall, hs]

/-- Drawing leaves the active view unchanged. -/
theorem Window.draw_view (w : Window) (env : Env) :
    ((w.draw env).1).view = w.view := by
  by_cases h : w.dirtyProp
  · cases hv : w.view <;> simp [Window.draw, h, hv]
  · simp [Window.draw, h]

/-- Unstalling leaves the active view unchanged. -/
theorem Window.unstall_view (w : Window) (env : Env) :
    ((w.unstall env).1).view = w.view := by
  by_cases hs : w.stalled
  · simpa [Window.unstall, hs] using Window.draw_view { w with stalled := false } env
  · simp [Window.unstall, hs]

/-- C3 (amended): handling Ring(a) always issues exactly one
fire-and-forget removal request for a's id and then attempts audio
playback; when playback starts, the view switches to the ringing display
for a (with its id taken) and the window is unstalled; when playback
fails to start, the error is logged and the window returns with its
view unchanged — the ringing view does not activate. -/
theorem ring_behavior (w : Window) (alarm : Alarm) (env : Env) :
    ((w.ring alarm env).2).count (Effect.spawnRemove alarm.id) = 1 ∧
    (env.playOk = true →
      ((w.ring alarm env).1).view = View.ringAlarm { alarm with id := "" } ∧
      w.ring alarm env =
        ((Window.unstall
            { w with view := .ringAlarm { alarm with id := "" }, dirty := true } env).1,
         .spawnRemove alarm.id :: .playAttempt ::
          (Window.unstall
            { w with view := .ringAlarm { alarm with id := "" }, dirty := true } env).2)) ∧
    (env.playOk = false →
      w.ring alarm env = (w, [.spawnRemove alarm.id, .playAttempt, .logPlayError])) := by
  refine ⟨?_, ?_, ?_⟩
  · by_cases hp : env.playOk
    · simp [Window.ring, hp, List.count_append, List.count_cons,
        Window.unstall_spawnRemove_count]
    · simp [Window.ring, hp, List.count_cons]
  · intro hp
    have h1 : (w.ring alarm env).1 =
        (Window.unstall
          { w with view := .ringAlarm { alarm with id := "" }, dirty := true } env).1 := by
      simp [Window.ring, hp]
    refine ⟨?_, by simp [Window.ring, hp]⟩
    rw [h1, Window.unstall_view]
  · intro hp
    simp [Window.ring, hp]

/-- Witness for C3 (amended): ringing alarm0 on w0 with working audio. -/
theorem ring_behavior_witness :
    env0.playOk = true ∧
    ((w0.ring alarm0 env0).2).count (Effect.spawnRemove alarm0.id) = 1 ∧
    ((w0.ring alarm0 env0).1).view = View.ringAlarm { alarm0 with id := "" } := by
  have hp : env0.playOk = true := rfl
  have h := ring_behavior w0 alarm0 env0
  exact ⟨hp, h.1, (h.2.1 hp).1⟩

/-- Counterexample to C3 as stated: when playback fails to start, the
window is returned unchanged in the list view — the ringing view does
not activate silently (though the single removal request has already
been issued). -/
theorem ring_play_failure_keeps_view :
    (w0.ring alarm0 envFail).1 = w0 ∧
    w0.view = View.listAlarms ∧
    (∀ a : Alarm, View.listAlarms ≠ View.ringAlarm a) ∧
    ((w0.ring alarm0 envFail).2).count (Effect.spawnRemove alarm0.id) = 1 := by
  refine ⟨?_, ?_, ?_, ?_⟩
  · simp [Window.ring, envFail, env0]
  · simp [w0, Window.new]
  · intro a h
    exact View.noConfusion h
  · simp [Window.ring, envFail, env0, List.count_cons]

/-- Dropping a prefix whose elements all satisfy the predicate. -/
theorem dropWhile_append_of_forall {α : Type} (p : α → Bool) (l1 l2 : List α)
    (h : ∀ a ∈ l1, p a = true) :
    (l1 ++ l2).dropWhile p = l2.dropWhile p := by
  induction l1 with
  | nil => rfl
  | cons a l ih =>
    have ha : p a = true := h a (by simp)
    simp only [List.cons_append, List.dropWhile_cons, ha, if_true]
    exact ih (fun x hx => h x (by simp [hx]))

/-- The connection wait loop only ever dispatches and, on abort,
disconnects; it never sends a set-volume command. -/
theorem connectLoop_cmds (env : PaEnv) :
    ∀ (fuel : ℕ) (pa : Pulseaudio) (r : Except PaError Pulseaudio)
      (trace : List PaCmd), connectLoop env pa fuel = some (r, trace) →
      ∀ c ∈ trace, c = PaCmd.iterate ∨ c = PaCmd.disconnect := by
  intro fuel
  induction fuel with
  | zero =>
    intro pa r trace h
    simp [connectLoop] at h
  | succ n ih =>
    intro pa r trace h
    simp only [connectLoop] at h
    split at h
    · simp only [Option.some.injEq, Prod.mk.injEq] at h
      obtain ⟨rfl, rfl⟩ := h
      decide
    · split at h
      · simp only [Option.some.injEq, Prod.mk.injEq] at h
        obtain ⟨rfl, rfl⟩ := h
        decide
      · simp only [Option.some.injEq, Prod.mk.injEq] at h
        obtain ⟨rfl, rfl⟩ := h
        decide
      · simp only [Option.some.injEq, Prod.mk.injEq] at h
        obtain ⟨rfl, rfl⟩ := h
        decide
      · split at h
        · exact Option.noConfusion h
        · rename_i r2 trace2 hrec
          simp only [Option.some.injEq, Prod.mk.injEq] at h
          obtain ⟨rfl, rfl⟩ := h
          intro c hc
          rcases List.mem_cons.mp hc with rfl | hc
          · exact Or.inl rfl
          · exact ih _ r2 trace2 hrec c hc

/-- A successful connect takes the pre-check path and runs the wait
loop. -/
theorem connect_ok_loop (env : PaEnv) (fuel : ℕ) (pa : Pulseaudio)
    (trace : List PaCmd)
    (hc : Pulseaudio.connect env fuel = some (.ok pa, trace)) :
    connectLoop env { dispatched := 0 } fuel = some (.ok pa, trace) := by
  by_cases h1 : env.mainloopOk = false
  · simp [Pulseaudio.connect, h1] at hc
  by_cases h2 : env.contextOk = false
  · simp [Pulseaudio.connect, h1, h2] at hc
  cases h3 : env.connectErr with
  | some code => simp [Pulseaudio.connect, h1, h2, h3] at hc
  | none => simpa [Pulseaudio.connect, h1, h2, h3] using hc

/-- C6 (amended): once the connection reaches Ready, the volume raise
issues one set-volume-to-100% command addressed to the sink at index 0
(all channels at Volume::NORMAL), then performs exactly three additional
blocking dispatch iterations before disconnecting. -/
theorem volume_raise_ready_sequence (env : PaEnv) (fuel : ℕ) (pa : Pulseaudio)
    (trace : List PaCmd)
    (hc : Pulseaudio.connect env fuel = some (.ok pa, trace))
    (h1 : ∃ n, env.iter pa.dispatched = .success n)
    (h2 : ∃ n, env.iter (pa.dispatched + 1) = .success n)
    (h3 : ∃ n, env.iter (pa.dispatched + 2) = .success n) :
    raiseVolume env fuel = some (.ok (),
      trace ++ [.setSinkVolumeByIndex 0 { channels := CHANNELS_MAX, volume := VOLUME_NORMAL },
        .iterate, .iterate, .iterate, .disconnect]) ∧
    itersBetweenCmdAndDisconnect
      (trace ++ [.setSinkVolumeByIndex 0 { channels := CHANNELS_MAX, volume := VOLUME_NORMAL },
        .iterate, .iterate, .iterate, .disconnect]) = 3 := by
  obtain ⟨n1, e1⟩ := h1
  obtain ⟨n2, e2⟩ := h2
  obtain ⟨n3, e3⟩ := h3
  have e3' : env.iter (pa.dispatched + 1 + 1) = .success n3 := e3
  have hvol : VOLUME_NORMAL * 100 / 100 = VOLUME_NORMAL := by decide
  have hsv : Pulseaudio.set_volume env pa 100 =
      (.ok { dispatched := pa.dispatched + 3 },
       [.setSinkVolumeByIndex 0 { channels := CHANNELS_MAX, volume := VOLUME_NORMAL },
        .iterate, .iterate, .iterate]) := by
    simp [Pulseaudio.set_volume, Pulseaudio.dispatch, e1, e2, e3', hvol]
  constructor
  · simp [raiseVolume, hc, hsv, Except.map]
  · have hall := connectLoop_cmds env fuel { dispatched := 0 } (.ok pa) trace
      (connect_ok_loop env fuel pa trace hc)
    simp only [itersBetweenCmdAndDisconnect]
    rw [dropWhile_append_of_forall]
    · decide
    · intro a ha
      rcases hall a ha with rfl | rfl <;> rfl

/-- Witness for C6 (amended) at an always-ready audio server. -/
theorem volume_raise_ready_sequence_witness :
    Pulseaudio.connect paEnv0 1 = some (.ok { dispatched := 1 }, [.iterate]) ∧
    (∃ n, paEnv0.iter 1 = .success n) ∧
    raiseVolume paEnv0 1 = some (.ok (),
      [.iterate] ++ [.setSinkVolumeByIndex 0 { channels := CHANNELS_MAX, volume := VOLUME_NORMAL },
        .iterate, .iterate, .iterate, .disconnect]) ∧
    itersBetweenCmdAndDisconnect
      ([.iterate] ++ [.setSinkVolumeByIndex 0 { channels := CHANNELS_MAX, volume := VOLUME_NORMAL },
        .iterate, .iterate, .iterate, .disconnect]) = 3 := by
  have hc : Pulseaudio.connect paEnv0 1 = some (.ok { dispatched := 1 }, [.iterate]) := rfl
  have h := volume_raise_ready_sequence paEnv0 1 { dispatched := 1 } [.iterate] hc
    ⟨0, rfl⟩ ⟨0, rfl⟩ ⟨0, rfl⟩
  exact ⟨hc, ⟨0, rfl⟩, h.1, h.2⟩

/-- Counterexample to C6 as stated: in the fully successful run the
set-volume command is followed by three blocking dispatch iterations
before the disconnect, not two. -/
theorem set_volume_three_dispatches_not_two :
    raiseVolume paEnv0 1 = some (.ok (),
      [.iterate, .setSinkVolumeByIndex 0 { channels := 32, volume := 65536 },
       .iterate, .iterate, .iterate, .disconnect]) ∧
    itersBetweenCmdAndDisconnect
      [.iterate, .setSinkVolumeByIndex 0 { channels := 32, volume := 65536 },
       .iterate, .iterate, .iterate, .disconnect] = 3 ∧
    (3 : ℕ) ≠ 2 := by
  exact ⟨rfl, by decide, by decide⟩

/-- C7: the bridge channel's Closed event sets the loop's termination
flag, the loop then exits within one dispatch cycle, and no other event
handled by the loop sets that flag — channel closure is the only
propagated, process-terminating condition. -/
theorem channel_closed_terminates (s : LoopState) (config : Config)
    (event : LoopEvent) (env : Env) (rest : List (LoopEvent × Env)) :
    (((handleEvent s config LoopEvent.channelClosed env).1).terminated = true) ∧
    (event ≠ LoopEvent.channelClosed →
      ((handleEvent s config event env).1).terminated = s.terminated) ∧
    (s.terminated = false →
      runLoop s config ((LoopEvent.channelClosed, env) :: rest) =
        ({ s with terminated := true }, 1)) := by
  refine ⟨rfl, ?_, ?_⟩
  · intro hne
    cases event with
    | channelMsg e =>
      cases e with
      | alarmsChanged alarms => rfl
      | ring alarm => rfl
    | channelClosed => exact absurd rfl hne
    | touchDown point => rfl
    | touchMotion point => rfl
    | touchUp => rfl
    | configure size => rfl
    | scaleFactor scale => rfl
    | configChanged c => rfl
    | frameDone => rfl
  · intro h
    have hterm : ((handleEvent s config LoopEvent.channelClosed env).1).terminated = true :=
      rfl
    cases rest with
    | nil => simp [runLoop, h, handleEvent]
    | cons e rest =>
      cases e with
      | mk e1 e2 => simp [runLoop, h, handleEvent]

/-- Witness for C7: a loop over w0 handles a touch release without
touching the flag and exits one cycle after channel closure. -/
theorem channel_closed_terminates_witness :
    (LoopEvent.touchUp ≠ LoopEvent.channelClosed) ∧
    ((⟨w0, false⟩ : LoopState).terminated = false) ∧
    (((handleEvent ⟨w0, false⟩ cfg0 LoopEvent.touchUp env0).1).terminated =
      (⟨w0, false⟩ : LoopState).terminated) ∧
    (runLoop ⟨w0, false⟩ cfg0 [(LoopEvent.channelClosed, env0)] =
      ({ window := w0, terminated := true }, 1)) := by
  have h := channel_closed_terminates ⟨w0, false⟩ cfg0 LoopEvent.touchUp env0 []
  exact ⟨by simp, rfl, h.2.1 (by simp), h.2.2 rfl⟩

/-- C10: once Subscriber::new has succeeded on the worker thread, the
forwarding loop never exits — a None from subscriber.next() sends
nothing and is simply retried — so the bridge channel closes, and the
application can terminate, only when Subscriber construction failed. -/
theorem worker_exit_iff_ctor_failure (ctor : Option (List Alarm))
    (next : ℕ → Option AlarmEvent) (n : ℕ) :
    ((workerRun ctor next n).exited = true ↔ ctor = none) ∧
    (∀ st : WorkerSt, workerIter st none = st) := by
  constructor
  · induction n with
    | zero => cases ctor <;> simp [workerRun, workerInit]
    | succ m ih =>
      have hiter : ∀ (st : WorkerSt) (ev : Option AlarmEvent),
          (workerIter st ev).exited = st.exited := by
        intro st ev
        by_cases hex : st.exited <;> cases ev <;> simp [workerIter, hex]
      simp only [workerRun, hiter]
      exact ih
  · intro st
    by_cases hex : st.exited <;> simp [workerIter, hex]

/-- C8 (amended): for friction strictly between 0 and 1 and a positive
tick interval, every apply call leaves the velocity's magnitude no
larger than before (a real tick multiplies it by f^t with t ≥ 0, the
sub-threshold case snaps it to 0, the other cases leave it unchanged);
and the offset produced by a single apply call on a recorded baseline
tends to the initial offset plus v0 / (1 - f) as the elapsed time tends
to infinity. -/
theorem velocity_decay_and_offset_limit (input : InputCfg)
    (hf0 : 0 < input.velocity_friction) (hf1 : input.velocity_friction < 1)
    (hi : 0 < input.velocity_interval) :
    (∀ (sv : ScrollVelocity) (off now : ℝ),
      (∀ lt, sv.last_tick = some lt → lt ≤ now) →
      |((ScrollVelocity.apply input sv off now).1).velocity| ≤ |sv.velocity|) ∧
    (∀ (v0 off lt : ℝ), v0 ≠ 0 →
      Filter.Tendsto
        (fun now => (ScrollVelocity.apply input ⟨some lt, v0⟩ off now).2)
        Filter.atTop (nhds (off + v0 / (1 - input.velocity_friction)))) := by
  constructor
  · intro sv off now hlt
    by_cases hv : sv.velocity = 0
    · rw [ScrollVelocity.apply_zero input sv off now hv]
    · cases hb : sv.last_tick with
      | none =>
        rw [ScrollVelocity.apply_baseline input sv off now hv hb]
      | some lt =>
        rw [ScrollVelocity.apply_tick input sv off now lt hv hb]
        have ht0 : 0 ≤ (now - lt) / (input.velocity_interval * 1000) := by
          apply div_nonneg
          · linarith [hlt lt hb]
          · positivity
        by_cases hcond : 1 < |sv.velocity * input.velocity_friction ^
            ((now - lt) / (input.velocity_interval * 1000))|
        · rw [if_pos hcond]
          show |sv.velocity * input.velocity_friction ^
              ((now - lt) / (input.velocity_interval * 1000))| ≤ |sv.velocity|
          rw [abs_mul, abs_of_nonneg (Real.rpow_nonneg hf0.le _)]
          exact mul_le_of_le_one_right (abs_nonneg _)
            (Real.rpow_le_one hf0.le hf1.le ht0)
        · rw [if_neg hcond]
          show |(0 : ℝ)| ≤ |sv.velocity|
          simp [abs_nonneg]
  · intro v0 off lt hv0
    have key : ∀ now : ℝ,
        (ScrollVelocity.apply input ⟨some lt, v0⟩ off now).2 =
          off + v0 * (1 - input.velocity_friction ^
            ((now - lt) / (input.velocity_interval * 1000) + 1)) /
            (1 - input.velocity_friction) := by
      intro now
      rw [ScrollVelocity.apply_tick input ⟨some lt, v0⟩ off now lt hv0 rfl]
    have h1 : Filter.Tendsto
        (fun now : ℝ => (now - lt) / (input.velocity_interval * 1000) + 1)
        Filter.atTop Filter.atTop := by
      apply Filter.tendsto_atTop_add_const_right
      apply Filter.Tendsto.atTop_div_const (by positivity)
      simpa [sub_eq_add_neg] using
        Filter.tendsto_atTop_add_const_right Filter.atTop (-lt) Filter.tendsto_id
    have h2 : Filter.Tendsto (fun s : ℝ => input.velocity_friction ^ s)
        Filter.atTop (nhds 0) :=
      tendsto_rpow_atTop_of_base_lt_one _ (by linarith) hf1
    have h3 : Filter.Tendsto
        (fun now : ℝ => input.velocity_friction ^
          ((now - lt) / (input.velocity_interval * 1000) + 1))
        Filter.atTop (nhds 0) := h2.comp h1
    have h4 : Filter.Tendsto
        (fun now : ℝ => off + v0 * (1 - input.velocity_friction ^
          ((now - lt) / (input.velocity_interval * 1000) + 1)) /
          (1 - input.velocity_friction))
        Filter.atTop
        (nhds (off + v0 * (1 - 0) / (1 - input.velocity_friction))) :=
      Filter.Tendsto.add tendsto_const_nhds
        (((tendsto_const_nhds.sub h3).const_mul v0).div_const
          (1 - input.velocity_friction))
    have h5 : off + v0 * (1 - 0) / (1 - input.velocity_friction) =
        off + v0 / (1 - input.velocity_friction) := by
      ring
    rw [← h5]
    exact Filter.Tendsto.congr (fun now => (key now).symm) h4

/-- Witness for C8 (amended) at friction 1/2, initial velocity 4. -/
theorem velocity_decay_and_offset_limit_witness :
    0 < input8.velocity_friction ∧ input8.velocity_friction < 1 ∧
    0 < input8.velocity_interval ∧ (4 : ℝ) ≠ 0 ∧
    Filter.Tendsto (fun now => (ScrollVelocity.apply input8 ⟨some 0, 4⟩ 0 now).2)
      Filter.atTop (nhds (0 + 4 / (1 - input8.velocity_friction))) := by
  have h1 : 0 < input8.velocity_friction := by
    simp only [input8]
    norm_num
  have h2 : input8.velocity_friction < 1 := by
    simp only [input8]
    norm_num
  have h3 : 0 < input8.velocity_interval := by
    simp only [input8]
    norm_num
  exact ⟨h1, h2, h3, by norm_num,
    (velocity_decay_and_offset_limit input8 h1 h2 h3).2 4 0 0 (by norm_num)⟩

/-- Counterexample to C8 as stated: with friction 1/2 and velocity 4
installed by set, the tick sequence at 0, 1000 and 2000 microseconds (one
tick interval apart each) accumulates offset 9 and then stops forever
with velocity 0, while v0 / (1 - f) = 8 — the cumulative offset over
repeated ticks does not converge to v0 / (1 - f). -/
theorem repeated_ticks_offset_nine_not_eight :
    ScrollVelocity.apply input8 ⟨none, 4⟩ 0 0 = (⟨some 0, 4⟩, 0) ∧
    ScrollVelocity.apply input8 ⟨some 0, 4⟩ 0 1000 = (⟨some 1000, 2⟩, 6) ∧
    ScrollVelocity.apply input8 ⟨some 1000, 2⟩ 6 2000 = (⟨none, 0⟩, 9) ∧
    (∀ off now : ℝ, ScrollVelocity.apply input8 ⟨none, 0⟩ off now = (⟨none, 0⟩, off)) ∧
    (9 : ℝ) ≠ 4 / (1 - input8.velocity_friction) := by
  have hf : input8.velocity_friction = 1 / 2 := rfl
  have hI : input8.velocity_interval = 1 := rfl
  have e2 : ((1 : ℝ) / 2) ^ (1 : ℝ) = 1 / 2 := Real.rpow_one _
  have e3 : ((1 : ℝ) / 2) ^ ((1 : ℝ) + 1) = 1 / 4 := by
    rw [show ((1 : ℝ) + 1) = ((2 : ℕ) : ℝ) by norm_num, Real.rpow_natCast]
    norm_num
  refine ⟨?_, ?_, ?_, ?_, ?_⟩
  · exact ScrollVelocity.apply_baseline input8 ⟨none, 4⟩ 0 0 (by norm_num) rfl
  · rw [ScrollVelocity.apply_tick input8 ⟨some 0, 4⟩ 0 1000 0 (by norm_num) rfl]
    rw [hf, hI]
    rw [show ((1000 : ℝ) - 0) / (1 * 1000) = 1 by norm_num, e2, e3]
    rw [if_pos (by rw [show (4 : ℝ) * (1 / 2) = 2 by norm_num,
      abs_of_pos (by norm_num : (0 : ℝ) < 2)]; norm_num)]
    norm_num
  · rw [ScrollVelocity.apply_tick input8 ⟨some 1000, 2⟩ 6 2000 1000 (by norm_num) rfl]
    rw [hf, hI]
    rw [show ((2000 : ℝ) - 1000) / (1 * 1000) = 1 by norm_num, e2, e3]
    rw [if_neg (by rw [show (2 : ℝ) * (1 / 2) = 1 by norm_num,
      abs_of_pos (by norm_num : (0 : ℝ) < 1)]; norm_num)]
    norm_num
  · intro off now
    exact ScrollVelocity.apply_zero input8 ⟨none, 0⟩ off now rfl
  · rw [hf]
    norm_num

/-- Rust's round at a natural number is that number. -/
theorem rustRound_natCast (n : ℕ) : rustRound ((n : ℕ) : ℝ) = n := by
  unfold rustRound
  rw [if_pos (by positivity : (0 : ℝ) ≤ ((n : ℕ) : ℝ))]
  have h : ⌊((n : ℕ) : ℝ) + 1 / 2⌋ = (n : ℤ) := by
    rw [Int.floor_eq_iff]
    constructor
    · push_cast
      linarith
    · push_cast
      linarith
  exact h

/-- The carousel value at an offset resting exactly on item k. -/
theorem TextCarousel.value_at (c : TextCarousel) (k : ℕ) (items : List String)
    (hs : 0 < c.scale) (hi : c.items = items)
    (ho : c.scroll_offset = -(CAROUSEL_ITEM_SIZE * c.scale) * (k : ℝ)) :
    c.value = (parseNat (items.getD (((k : ℤ) % (items.length : ℤ)).toNat) "")).getD 0 := by
  simp only [TextCarousel.value, TextCarousel.item_height, ho, hi]
  have hne : CAROUSEL_ITEM_SIZE * c.scale ≠ 0 := by
    have : (0 : ℝ) < CAROUSEL_ITEM_SIZE * c.scale := by
      simp only [CAROUSEL_ITEM_SIZE]
      positivity
    exact ne_of_gt this
  rw [show -(-(CAROUSEL_ITEM_SIZE * c.scale) * (k : ℝ)) /
      (CAROUSEL_ITEM_SIZE * c.scale) = (k : ℝ) by field_simp]
  rw [rustRound_natCast]

/-- C9: starting from selection hour 23 and minute 50 in the creation
view, the quick-add of 90 minutes yields — as reported by the carousels'
value() — hour 01 and minute 20: the minutes are taken modulo 60, the
carry is added to the hours, and the hour wheel's 24 items wrap the
result modulo 24. -/
theorem quick_add_ninety_minutes (ca : CreateAlarm) (hs : 0 < ca.scale)
    (hhs : ca.hour_carousel.scale = ca.scale)
    (hms : ca.minute_carousel.scale = ca.scale)
    (hhi : ca.hour_carousel.items = hourItems)
    (hmi : ca.minute_carousel.items = minuteItems)
    (hho : ca.hour_carousel.scroll_offset =
      -(CAROUSEL_ITEM_SIZE * ca.scale) * ((23 : ℕ) : ℝ))
    (hmo : ca.minute_carousel.scroll_offset =
      -(CAROUSEL_ITEM_SIZE * ca.scale) * ((10 : ℕ) : ℝ)) :
    (ca.hour_carousel.value = 23 ∧ ca.minute_carousel.value = 50) ∧
    ((ca.add_minutes 90).hour_carousel.value = 1 ∧
     (ca.add_minutes 90).minute_carousel.value = 20) := by
  have hsh : 0 < ca.hour_carousel.scale := by rw [hhs]; exact hs
  have hsm : 0 < ca.minute_carousel.scale := by rw [hms]; exact hs
  have h23 : ca.hour_carousel.value = 23 := by
    rw [TextCarousel.value_at ca.hour_carousel 23 hourItems hsh hhi
      (by rw [hho, hhs])]
    decide
  have h50 : ca.minute_carousel.value = 50 := by
    rw [TextCarousel.value_at ca.minute_carousel 10 minuteItems hsm hmi
      (by rw [hmo, hms])]
    decide
  have hadd_h : (ca.add_minutes 90).hour_carousel = ca.hour_carousel.scroll_to 25 := by
    simp only [CreateAlarm.add_minutes, h50, h23]
  have hadd_m : (ca.add_minutes 90).minute_carousel = ca.minute_carousel.scroll_to 4 := by
    simp only [CreateAlarm.add_minutes, h50]
  refine ⟨⟨h23, h50⟩, ?_, ?_⟩
  · rw [hadd_h]
    rw [TextCarousel.value_at (ca.hour_carousel.scroll_to 25) 25 hourItems hsh hhi rfl]
    decide
  · rw [hadd_m]
    rw [TextCarousel.value_at (ca.minute_carousel.scroll_to 4) 4 minuteItems hsm hmi rfl]
    decide

/-- Witness for C9 at scale 1 on the concrete creation view ca9. -/
theorem quick_add_ninety_minutes_witness :
    (0 : ℝ) < ca9.scale ∧
    ca9.hour_carousel.items = hourItems ∧
    ca9.minute_carousel.items = minuteItems ∧
    (ca9.hour_carousel.value = 23 ∧ ca9.minute_carousel.value = 50) ∧
    ((ca9.add_minutes 90).hour_carousel.value = 1 ∧
     (ca9.add_minutes 90).minute_carousel.value = 20) := by
  have h := quick_add_ninety_minutes ca9 (by norm_num [ca9, CreateAlarm.init])
    rfl rfl rfl rfl rfl rfl
  exact ⟨by norm_num [ca9, CreateAlarm.init], rfl, rfl, h.1, h.2⟩

end Aevum
